import Mathlib

/-!
Formal model of the Jhaveri FIE core: the technical-signal engine
(src/agents/technical_signals.py, thresholds and weights from
src/config/settings.py) and the rule-based recommendation engine
(src/agents/mock_engine.py).

Modelling conventions, used throughout:

* Python floats are modelled as exact rationals (`ℚ`).  All properties
  proved below concern threshold comparisons and arithmetic on values
  (score points, percentages, rupee amounts) where the rational model
  coincides with the double computation in the source.
* A missing dictionary key or an IEEE NaN entry is modelled as
  `Option.none`; `dict.get(k, d)` is `Option.getD`.  The Python idiom
  `if x and not np.isnan(x):` is modelled as "x is `some` and nonzero"
  (a float `0.0` is falsy in Python, so a present zero is skipped by
  that guard exactly like a NaN).
* Python's builtin `round` (banker's rounding, half to even) is
  modelled by `pyRound` below; `round(x, 1)` by `pyRound1`,
  `round(x, 2)` by `pyRound2`.
* `sorted(..., key=lambda x: -x.confidence)` is a stable sort; it is
  modelled by the insertion sort `stableSortDesc`, which is extensionally
  the unique stable descending sort by confidence.
-/

namespace FIE

/-- Python's builtin `round` to an integer: nearest integer, ties to even. -/
def pyRound (q : ℚ) : ℤ :=
  if q - (⌊q⌋ : ℚ) < 1/2 then ⌊q⌋
  else if 1/2 < q - (⌊q⌋ : ℚ) then ⌊q⌋ + 1
  else if ⌊q⌋ % 2 = 0 then ⌊q⌋ else ⌊q⌋ + 1

/-- Python's `round(x, 1)`. -/
def pyRound1 (q : ℚ) : ℚ := (pyRound (q * 10) : ℚ) / 10

/-- Python's `round(x, 2)`. -/
def pyRound2 (q : ℚ) : ℚ := (pyRound (q * 100) : ℚ) / 100

theorem pyRound_le (q : ℚ) (n : ℤ) (h : q ≤ (n : ℚ)) : pyRound q ≤ n := by
  unfold pyRound
  have hf : (⌊q⌋ : ℚ) ≤ q := Int.floor_le q
  have hfn : ⌊q⌋ ≤ n := by simpa using Int.floor_mono h
  split_ifs with h1 h2 h3
  · exact hfn
  · have hlt : (⌊q⌋ : ℚ) < (n : ℚ) := by linarith
    have : ⌊q⌋ < n := by exact_mod_cast hlt
    omega
  · exact hfn
  · have hlt : (⌊q⌋ : ℚ) < (n : ℚ) := by linarith
    have : ⌊q⌋ < n := by exact_mod_cast hlt
    omega

theorem pyRound_ge (q : ℚ) (n : ℤ) (h : (n : ℚ) ≤ q) : n ≤ pyRound q := by
  unfold pyRound
  have hfn : n ≤ ⌊q⌋ := Int.le_floor.mpr h
  split_ifs <;> omega

/-- `max(-100, min(100, x))`, the clamp applied to every sub-score
(written as an if-chain so that it evaluates in the kernel;
`clamp_eq_max_min` checks it against the builtin `max`/`min`). -/
def clamp (x : ℚ) : ℚ := if x < -100 then -100 else if 100 < x then 100 else x

theorem clamp_eq_max_min (x : ℚ) : clamp x = max (-100) (min 100 x) := by
  unfold clamp
  rcases le_total x (-100) with h | h <;> rcases le_total 100 x with h2 | h2 <;>
    split_ifs <;>
    simp_all [max_eq_left, max_eq_right, min_eq_left, min_eq_right] <;> linarith

theorem clamp_bounds (x : ℚ) : -100 ≤ clamp x ∧ clamp x ≤ 100 := by
  unfold clamp
  split_ifs <;> constructor <;> linarith

/-!
## The indicator snapshot row

One row of the indicator DataFrame, as read by
`compute_composite_score` via `row.get(...)`.  Numeric fields are
`Option ℚ` (`none` = the key is missing from the row, or the stored
value is NaN); string-valued indicator labels are `Option String`
(`none` = missing key, which `row.get` turns into the branch default).
-/
structure Row where
  price_vs_200dma : Option String := none
  dma_cross : Option String := none
  adx : Option ℚ := none
  rsi_14 : Option ℚ := none
  macd_crossover : Option String := none
  stoch_rsi : Option ℚ := none
  volume_signal : Option String := none
  obv_trend : Option String := none
  bb_position : Option String := none
  pct_from_52w_high : Option ℚ := none
  pct_from_52w_low : Option ℚ := none
deriving DecidableEq

/-- settings.py `TECHNICAL_CONFIG["weight_trend"] = 0.30`. -/
def weight_trend : ℚ := 3/10
/-- settings.py `TECHNICAL_CONFIG["weight_momentum"] = 0.30`. -/
def weight_momentum : ℚ := 3/10
/-- settings.py `TECHNICAL_CONFIG["weight_volume"] = 0.20`. -/
def weight_volume : ℚ := 2/10
/-- settings.py `TECHNICAL_CONFIG["weight_volatility"] = 0.10`. -/
def weight_volatility : ℚ := 1/10
/-- settings.py `TECHNICAL_CONFIG["weight_relative_strength"] = 0.10`. -/
def weight_relative_strength : ℚ := 1/10

/-- Trend component of `compute_composite_score` before clamping
(technical_signals.py lines 315-340).  `row.get("adx", 0)` followed by
`if adx and not np.isnan(adx):` skips the ADX adjustment when the ADX
value is missing, NaN or zero. -/
def trendRaw (row : Row) : ℚ :=
  let t0 : ℚ := if row.price_vs_200dma = some "ABOVE" then 30 else -30
  let t1 : ℚ :=
    if row.dma_cross = some "GOLDEN_CROSS" then t0 + 40
    else if row.dma_cross = some "DEATH_CROSS" then t0 - 40
    else t0
  match row.adx with
  | some a =>
      if a = 0 then t1
      else if 30 < a then (if 0 < t1 then t1 + 20 else t1 - 20)
      else if a < 15 then t1 * (1/2)
      else t1
  | none => t1

/-- `scores["trend_score"]`. -/
def trend_score (row : Row) : ℚ := clamp (trendRaw row)

/-- Momentum component before clamping (lines 344-374).
`row.get("rsi_14", 50)` gives 50 for a missing key, which falls in no
RSI zone, so a missing key and a NaN value both contribute 0; a stored
zero RSI is falsy and is also skipped.  Likewise for `stoch_rsi`. -/
def momentumRaw (row : Row) : ℚ :=
  let m1 : ℚ :=
    match row.rsi_14 with
    | some r =>
        if r = 0 then 0
        else if r < 30 then 40
        else if 70 < r then -40
        else if r < 45 then 15
        else if 55 < r then -15
        else 0
    | none => 0
  let m2 : ℚ :=
    if row.macd_crossover = some "BULLISH" then m1 + 35
    else if row.macd_crossover = some "BEARISH" then m1 - 35
    else m1
  match row.stoch_rsi with
  | some t =>
      if t = 0 then m2
      else if t < 20 then m2 + 25
      else if 80 < t then m2 - 25
      else m2
  | none => m2

/-- `scores["momentum_score"]`. -/
def momentum_score (row : Row) : ℚ := clamp (momentumRaw row)

/-- Volume component before clamping (lines 377-392). -/
def volumeRaw (row : Row) : ℚ :=
  let vs := row.volume_signal.getD "NORMAL"
  let ot := row.obv_trend.getD "FLAT"
  if (vs = "SURGE" ∨ vs = "HIGH") ∧ ot = "RISING" then 60
  else if (vs = "SURGE" ∨ vs = "HIGH") ∧ ot = "FALLING" then -40
  else if ot = "RISING" then 25
  else if ot = "FALLING" then -25
  else 0

/-- `scores["volume_score"]`. -/
def volume_score (row : Row) : ℚ := clamp (volumeRaw row)

/-- Volatility component before clamping (lines 396-405). -/
def volatilityRaw (row : Row) : ℚ :=
  let bb := row.bb_position.getD "MIDDLE"
  if bb = "LOWER" then 40
  else if bb = "UPPER" then -40
  else 0

/-- `scores["volatility_score"]`. -/
def volatility_score (row : Row) : ℚ := clamp (volatilityRaw row)

/-- Relative-strength component before clamping (lines 408-424).
`row.get("pct_from_52w_high", 0)` followed by
`if pct_52h and not np.isnan(pct_52h):` skips a missing, NaN or zero
distance, so a close exactly at the 52-week high (distance 0)
contributes nothing; likewise for the 52-week-low distance. -/
def rsRaw (row : Row) : ℚ :=
  let s1 : ℚ :=
    match row.pct_from_52w_high with
    | some p =>
        if p = 0 then 0
        else if -5 < p then 40
        else if p < -30 then -30
        else 0
    | none => 0
  match row.pct_from_52w_low with
  | some p =>
      if p = 0 then s1
      else if p < 5 then s1 - 20
      else s1
  | none => s1

/-- `scores["relative_strength_score"]`. -/
def relative_strength_score (row : Row) : ℚ := clamp (rsRaw row)

/-- The unrounded composite, `composite` in the source (lines 428-434). -/
def compositeRaw (row : Row) : ℚ :=
  trend_score row * weight_trend
  + momentum_score row * weight_momentum
  + volume_score row * weight_volume
  + volatility_score row * weight_volatility
  + relative_strength_score row * weight_relative_strength

/-- The signal step function applied to the unrounded composite
(lines 438-448, thresholds from settings.py `SIGNAL_THRESHOLDS`). -/
def signalOf (c : ℚ) : String :=
  if 60 ≤ c then "STRONG_BUY"
  else if 20 ≤ c then "BUY"
  else if -20 ≤ c then "HOLD"
  else if -60 ≤ c then "SELL"
  else "STRONG_SELL"

/-- The dict returned by `compute_composite_score`. -/
structure Scores where
  trend_score : ℚ
  momentum_score : ℚ
  volume_score : ℚ
  volatility_score : ℚ
  relative_strength_score : ℚ
  composite_score : ℚ
  signal : String
deriving DecidableEq

/-- `compute_composite_score` (technical_signals.py lines 305-450).
The stored `composite_score` is `round(composite, 1)`; the signal is
computed from the unrounded composite. -/
def compute_composite_score (row : Row) : Scores :=
  { trend_score := trend_score row
    momentum_score := momentum_score row
    volume_score := volume_score row
    volatility_score := volatility_score row
    relative_strength_score := relative_strength_score row
    composite_score := pyRound1 (compositeRaw row)
    signal := signalOf (compositeRaw row) }

/-- Claim C1: for every indicator row, the five sub-scores (trend,
momentum, volume, volatility, relative strength) each lie in
[-100, 100], and the composite — the weighted sum of the clamped
sub-scores with weights 0.30, 0.30, 0.20, 0.10, 0.10 summing to 1 —
also lies in [-100, 100], both before and after the 1-decimal rounding
stored in the returned dict. -/
theorem c1_scores_and_composite_bounded (row : Row) :
    (-100 ≤ trend_score row ∧ trend_score row ≤ 100)
    ∧ (-100 ≤ momentum_score row ∧ momentum_score row ≤ 100)
    ∧ (-100 ≤ volume_score row ∧ volume_score row ≤ 100)
    ∧ (-100 ≤ volatility_score row ∧ volatility_score row ≤ 100)
    ∧ (-100 ≤ relative_strength_score row ∧ relative_strength_score row ≤ 100)
    ∧ compositeRaw row =
        trend_score row * weight_trend + momentum_score row * weight_momentum
        + volume_score row * weight_volume + volatility_score row * weight_volatility
        + relative_strength_score row * weight_relative_strength
    ∧ weight_trend + weight_momentum + weight_volume + weight_volatility
        + weight_relative_strength = 1
    ∧ (-100 ≤ compositeRaw row ∧ compositeRaw row ≤ 100)
    ∧ (compute_composite_score row).composite_score = pyRound1 (compositeRaw row)
    ∧ (-100 ≤ (compute_composite_score row).composite_score
        ∧ (compute_composite_score row).composite_score ≤ 100) := by
  obtain ⟨ht1, ht2⟩ := clamp_bounds (trendRaw row)
  obtain ⟨hm1, hm2⟩ := clamp_bounds (momentumRaw row)
  obtain ⟨hv1, hv2⟩ := clamp_bounds (volumeRaw row)
  obtain ⟨hw1, hw2⟩ := clamp_bounds (volatilityRaw row)
  obtain ⟨hr1, hr2⟩ := clamp_bounds (rsRaw row)
  have hcomp1 : -100 ≤ compositeRaw row := by
    unfold compositeRaw weight_trend weight_momentum weight_volume weight_volatility
      weight_relative_strength at *
    unfold trend_score momentum_score volume_score volatility_score
      relative_strength_score at *
    linarith
  have hcomp2 : compositeRaw row ≤ 100 := by
    unfold compositeRaw weight_trend weight_momentum weight_volume weight_volatility
      weight_relative_strength at *
    unfold trend_score momentum_score volume_score volatility_score
      relative_strength_score at *
    linarith
  have hr10 : compositeRaw row * 10 ≤ ((1000 : ℤ) : ℚ) := by push_cast; linarith
  have hr10' : (((-1000) : ℤ) : ℚ) ≤ compositeRaw row * 10 := by push_cast; linarith
  have hle : (pyRound (compositeRaw row * 10) : ℤ) ≤ 1000 := pyRound_le _ _ hr10
  have hge : ((-1000) : ℤ) ≤ pyRound (compositeRaw row * 10) := pyRound_ge _ _ hr10'
  have hleq : ((pyRound (compositeRaw row * 10) : ℤ) : ℚ) ≤ 1000 := by exact_mod_cast hle
  have hgeq : ((-1000 : ℚ)) ≤ ((pyRound (compositeRaw row * 10) : ℤ) : ℚ) := by
    exact_mod_cast hge
  refine ⟨⟨ht1, ht2⟩, ⟨hm1, hm2⟩, ⟨hv1, hv2⟩, ⟨hw1, hw2⟩, ⟨hr1, hr2⟩, rfl, by norm_num
    [weight_trend, weight_momentum, weight_volume, weight_volatility,
     weight_relative_strength], ⟨hcomp1, hcomp2⟩, rfl, ?_, ?_⟩
  · show -100 ≤ pyRound1 (compositeRaw row)
    unfold pyRound1
    linarith
  · show pyRound1 (compositeRaw row) ≤ 100
    unfold pyRound1
    linarith

/-- Rank of a signal label, used to state monotonicity of the signal in
the composite score. -/
def sigRank (s : String) : ℕ :=
  if s = "STRONG_SELL" then 0
  else if s = "SELL" then 1
  else if s = "HOLD" then 2
  else if s = "BUY" then 3
  else 4

theorem sigRank_signalOf (x : ℚ) :
    sigRank (signalOf x)
      = if 60 ≤ x then 4 else if 20 ≤ x then 3 else if -20 ≤ x then 2
        else if -60 ≤ x then 1 else 0 := by
  unfold signalOf
  split_ifs <;> rfl

theorem sigRank_mono {x y : ℚ} (h : x ≤ y) : sigRank (signalOf x) ≤ sigRank (signalOf y) := by
  rw [sigRank_signalOf, sigRank_signalOf]
  split_ifs <;> first | omega | (exfalso; linarith)

/-- Claim C2: the signal returned by `compute_composite_score` is the
fixed step function of the (unrounded) composite score: composite ≥ 60
gives STRONG_BUY, ≥ 20 gives BUY, ≥ -20 gives HOLD, ≥ -60 gives SELL,
anything lower gives STRONG_SELL, each band's lower boundary inclusive
(composite exactly 60, 20, -20, -60 yields STRONG_BUY, BUY, HOLD, SELL
respectively), and the label is monotonically non-decreasing in the
composite score. -/
theorem c2_signal_step_function (row : Row) (x y : ℚ) (hxy : x ≤ y) :
    (compute_composite_score row).signal = signalOf (compositeRaw row)
    ∧ (60 ≤ x → signalOf x = "STRONG_BUY")
    ∧ (20 ≤ x → x < 60 → signalOf x = "BUY")
    ∧ (-20 ≤ x → x < 20 → signalOf x = "HOLD")
    ∧ (-60 ≤ x → x < -20 → signalOf x = "SELL")
    ∧ (x < -60 → signalOf x = "STRONG_SELL")
    ∧ signalOf (60 : ℚ) = "STRONG_BUY"
    ∧ signalOf (20 : ℚ) = "BUY"
    ∧ signalOf (-20 : ℚ) = "HOLD"
    ∧ signalOf (-60 : ℚ) = "SELL"
    ∧ sigRank (signalOf x) ≤ sigRank (signalOf y) := by
  refine ⟨rfl, ?_, ?_, ?_, ?_, ?_, by norm_num [signalOf], by norm_num [signalOf],
    by norm_num [signalOf], by norm_num [signalOf], sigRank_mono hxy⟩
  all_goals intros; unfold signalOf; split_ifs <;> first | rfl | (exfalso; linarith)

/-- The all-defaults row: every indicator lookup misses. -/
def emptyRow : Row := {}

/-- Witness for C2 at the concrete row with no indicator data and the
concrete composite values 0 ≤ 1. -/
theorem c2_signal_step_function_witness :
    ((0 : ℚ) ≤ 1)
    ∧ ((compute_composite_score emptyRow).signal = signalOf (compositeRaw emptyRow)
      ∧ (60 ≤ (0 : ℚ) → signalOf (0 : ℚ) = "STRONG_BUY")
      ∧ (20 ≤ (0 : ℚ) → (0 : ℚ) < 60 → signalOf (0 : ℚ) = "BUY")
      ∧ (-20 ≤ (0 : ℚ) → (0 : ℚ) < 20 → signalOf (0 : ℚ) = "HOLD")
      ∧ (-60 ≤ (0 : ℚ) → (0 : ℚ) < -20 → signalOf (0 : ℚ) = "SELL")
      ∧ ((0 : ℚ) < -60 → signalOf (0 : ℚ) = "STRONG_SELL")
      ∧ signalOf (60 : ℚ) = "STRONG_BUY"
      ∧ signalOf (20 : ℚ) = "BUY"
      ∧ signalOf (-20 : ℚ) = "HOLD"
      ∧ signalOf (-60 : ℚ) = "SELL"
      ∧ sigRank (signalOf (0 : ℚ)) ≤ sigRank (signalOf (1 : ℚ))) :=
  ⟨by norm_num, c2_signal_step_function emptyRow 0 1 (by norm_num)⟩

/-!
## Claims C8 and C9: the momentum and relative-strength sub-scores

`momentum_score_claimed` and `rs_score_claimed` transcribe the claims'
wording (a pure sum of zone contributions, independent of the Python
falsy-zero guard); `momentum_score_amended` and `rs_score_amended` add
the guard the code actually applies.
-/

/-- RSI zone contribution as the claim states it: +40 below 30, -40
above 70, otherwise +15 below 45 and -15 above 55, for any present RSI
value. -/
def rsiZoneClaimed (x : Option ℚ) : ℚ :=
  match x with
  | some r =>
      if r < 30 then 40
      else if 70 < r then -40
      else if r < 45 then 15
      else if 55 < r then -15
      else 0
  | none => 0

/-- Stochastic-RSI zone contribution as the claim states it. -/
def stochZoneClaimed (x : Option ℚ) : ℚ :=
  match x with
  | some t => if t < 20 then 25 else if 80 < t then -25 else 0
  | none => 0

/-- MACD crossover contribution (±35). -/
def macdZone (x : Option String) : ℚ :=
  if x = some "BULLISH" then 35 else if x = some "BEARISH" then -35 else 0

/-- Momentum sub-score as claim C8 states it. -/
def momentum_score_claimed (row : Row) : ℚ :=
  clamp (rsiZoneClaimed row.rsi_14 + macdZone row.macd_crossover
    + stochZoneClaimed row.stoch_rsi)

/-- RSI zone contribution with the code's falsy-zero/NaN guard. -/
def rsiZoneGuarded (x : Option ℚ) : ℚ :=
  match x with
  | some r => if r = 0 then 0 else rsiZoneClaimed (some r)
  | none => 0

/-- Stochastic-RSI zone contribution with the code's guard. -/
def stochZoneGuarded (x : Option ℚ) : ℚ :=
  match x with
  | some t => if t = 0 then 0 else stochZoneClaimed (some t)
  | none => 0

/-- Momentum sub-score as amended: the zone contributions of C8, except
that an RSI or Stochastic-RSI value that is missing, NaN or exactly 0
contributes nothing. -/
def momentum_score_amended (row : Row) : ℚ :=
  clamp (rsiZoneGuarded row.rsi_14 + macdZone row.macd_crossover
    + stochZoneGuarded row.stoch_rsi)

/-- Concrete indicator row with RSI stored as 0 (deeply oversold). -/
def rowRsiZero : Row := { rsi_14 := some 0 }

/-- Counterexample to claim C8 as stated: at RSI = 0 (< 30) the claimed
momentum sub-score is clamp(+40) = 40, but `compute_composite_score`
returns 0 because the guard `if rsi and not np.isnan(rsi):` treats the
float 0.0 as falsy. -/
theorem c8_counterexample :
    momentum_score rowRsiZero = 0
    ∧ momentum_score_claimed rowRsiZero = 40
    ∧ (compute_composite_score rowRsiZero).momentum_score
        ≠ momentum_score_claimed rowRsiZero := by
  refine ⟨?_, ?_, ?_⟩ <;>
    (simp [compute_composite_score, momentum_score, momentumRaw,
      momentum_score_claimed, rsiZoneClaimed, macdZone, stochZoneClaimed,
      rowRsiZero] <;> norm_num [clamp])

set_option maxHeartbeats 1600000 in
/-- Claim C8 (amended): for every input row, the momentum sub-score is
the clamped sum of the claimed contributions — RSI zone (+40 / -40 /
+15 / -15, one zone per value), ±35 for a BULLISH/BEARISH MACD
crossover, ±25 for Stochastic RSI < 20 / > 80 — except that an RSI or
Stochastic-RSI value that is missing, NaN or exactly 0 contributes
nothing. -/
theorem c8_momentum_decomposition (row : Row) :
    (compute_composite_score row).momentum_score = momentum_score_amended row := by
  show momentum_score row = momentum_score_amended row
  rcases hr : row.rsi_14 with _ | r <;> rcases ht : row.stoch_rsi with _ | t <;>
    simp only [momentum_score, momentumRaw, momentum_score_amended, rsiZoneGuarded,
      stochZoneGuarded, rsiZoneClaimed, stochZoneClaimed, macdZone, hr, ht] <;>
    (try split_ifs) <;> (congr 1 <;> ring)

/-- Relative-strength contribution from the 52-week-high distance as
claim C9 states it: +40 when within 5% of the high (including exactly
at the high), -30 when more than 30% below. -/
def rsHighZoneClaimed (x : Option ℚ) : ℚ :=
  match x with
  | some p => if -5 < p then 40 else if p < -30 then -30 else 0
  | none => 0

/-- Relative-strength contribution from the 52-week-low distance as
claim C9 states it: -20 when within 5% of the low (including exactly at
the low). -/
def rsLowZoneClaimed (x : Option ℚ) : ℚ :=
  match x with
  | some p => if p < 5 then -20 else 0
  | none => 0

/-- Relative-strength sub-score as claim C9 states it. -/
def rs_score_claimed (row : Row) : ℚ :=
  clamp (rsHighZoneClaimed row.pct_from_52w_high + rsLowZoneClaimed row.pct_from_52w_low)

/-- 52-week-high contribution with the code's falsy-zero/NaN guard. -/
def rsHighZoneGuarded (x : Option ℚ) : ℚ :=
  match x with
  | some p => if p = 0 then 0 else rsHighZoneClaimed (some p)
  | none => 0

/-- 52-week-low contribution with the code's falsy-zero/NaN guard. -/
def rsLowZoneGuarded (x : Option ℚ) : ℚ :=
  match x with
  | some p => if p = 0 then 0 else rsLowZoneClaimed (some p)
  | none => 0

/-- Relative-strength sub-score as amended: contributions of C9, except
that a distance that is missing, NaN or exactly 0 contributes nothing
(in particular a close exactly at the 52-week high or low). -/
def rs_score_amended (row : Row) : ℚ :=
  clamp (rsHighZoneGuarded row.pct_from_52w_high + rsLowZoneGuarded row.pct_from_52w_low)

/-- Concrete indicator row for a close exactly at its 52-week high. -/
def rowAtHigh : Row := { pct_from_52w_high := some 0 }

/-- Counterexample to claim C9 as stated: exactly at the 52-week high
the distance is 0, the claim awards +40, but the code's guard
`if pct_52h and not np.isnan(pct_52h):` treats 0.0 as falsy and the
returned relative-strength sub-score is 0. -/
theorem c9_counterexample :
    relative_strength_score rowAtHigh = 0
    ∧ rs_score_claimed rowAtHigh = 40
    ∧ (compute_composite_score rowAtHigh).relative_strength_score
        ≠ rs_score_claimed rowAtHigh := by
  refine ⟨?_, ?_, ?_⟩ <;>
    (simp [compute_composite_score, relative_strength_score, rsRaw,
      rs_score_claimed, rsHighZoneClaimed, rsLowZoneClaimed, rowAtHigh] <;>
      norm_num [clamp])

/-- Claim C9 (amended): for every input row, the relative-strength
sub-score is the clamped sum of the independently evaluated
contributions of C9 — +40 within 5% of the 52-week high, -30 more than
30% below it, -20 within 5% of the 52-week low — except that a distance
that is missing, NaN or exactly 0 (a close exactly at the high or the
low) contributes nothing. -/
theorem c9_relative_strength_decomposition (row : Row) :
    (compute_composite_score row).relative_strength_score = rs_score_amended row := by
  show relative_strength_score row = rs_score_amended row
  rcases hp : row.pct_from_52w_high with _ | p <;>
    rcases hq : row.pct_from_52w_low with _ | q <;>
    simp only [relative_strength_score, rsRaw, rs_score_amended, rsHighZoneGuarded,
      rsLowZoneGuarded, rsHighZoneClaimed, rsLowZoneClaimed, hp, hq] <;>
    (try split_ifs) <;> first | rfl | (congr 1; ring)

/-!
## Claim C7: `_compute_rsi` (technical_signals.py lines 191-207)

`delta = series.diff()` has NaN at index 0, and
`delta.where(delta > 0, 0.0)` turns it into 0 (NaN > 0 is false), so the
gain/loss series start with 0.  The Wilder average at bar `period-1+j`
is the simple mean of the first `period` gains/losses for `j = 0` and
the recurrence `avg = (avg_prev*(period-1) + current)/period` afterwards.
`rs = avg_gain / avg_loss; rsi = 100 - 100/(1+rs)` is IEEE float
arithmetic: positive/0 = +inf giving RSI 100, 0/0 = NaN giving RSI NaN
(`none` below); otherwise the rational formula applies.
-/

/-- Gain at bar `i` of a close series: `max(close[i]-close[i-1], 0)`,
with 0 at bar 0 (the NaN delta is replaced by 0). -/
def gainAt (c : List ℚ) (i : ℕ) : ℚ :=
  if i = 0 then 0 else max (c.getD i 0 - c.getD (i - 1) 0) 0

/-- Loss at bar `i` of a close series: `max(close[i-1]-close[i], 0)`,
with 0 at bar 0. -/
def lossAt (c : List ℚ) (i : ℕ) : ℚ :=
  if i = 0 then 0 else max (c.getD (i - 1) 0 - c.getD i 0) 0

/-- Wilder smoothing: value number `j` is the average at series index
`period - 1 + j`; `j = 0` is the simple mean of `g 0 .. g (period-1)`,
and `j+1` applies `avg = (avg_prev*(period-1) + g (period+j))/period`. -/
def wilder (period : ℕ) (g : ℕ → ℚ) : ℕ → ℚ
  | 0 => ((List.range period).map g).sum / period
  | j + 1 => (wilder period g j * (period - 1 : ℕ) + g (period + j)) / period

/-- `avg_gain` at bar `period - 1 + j`. -/
def avg_gain (c : List ℚ) (period j : ℕ) : ℚ := wilder period (gainAt c) j

/-- `avg_loss` at bar `period - 1 + j`. -/
def avg_loss (c : List ℚ) (period j : ℕ) : ℚ := wilder period (lossAt c) j

/-- `100 - 100/(1 + avg_gain/avg_loss)` under IEEE float conventions:
`none` encodes the NaN produced by 0/0. -/
def rsiFromAvgs (g l : ℚ) : Option ℚ :=
  if l = 0 then (if g = 0 then none else some 100)
  else some (100 - 100 / (1 + g / l))

/-- The RSI series produced by `_compute_rsi`, at bar `period - 1 + j`. -/
def compute_rsi (c : List ℚ) (period j : ℕ) : Option ℚ :=
  rsiFromAvgs (avg_gain c period j) (avg_loss c period j)

/-- Claim C7: for a bar whose Wilder-smoothed average loss is 0 while
the average gain is positive, `_compute_rsi` returns RSI 100;
symmetrically, when the average gain is 0 and the average loss is
positive, it returns RSI 0. -/
theorem c7_rsi_boundary (c : List ℚ) (period j : ℕ)
    (hl : avg_loss c period j = 0 → 0 < avg_gain c period j)
    (hg : avg_gain c period j = 0 → 0 < avg_loss c period j) :
    (avg_loss c period j = 0 → compute_rsi c period j = some 100)
    ∧ (avg_gain c period j = 0 → compute_rsi c period j = some 0) := by
  constructor
  · intro h0
    have hpos := hl h0
    unfold compute_rsi rsiFromAvgs
    rw [if_pos h0, if_neg (by linarith)]
  · intro h0
    have hpos := hg h0
    unfold compute_rsi rsiFromAvgs
    rw [if_neg (by linarith), h0]
    norm_num

/-- A strictly rising 15-bar close series (bars 0..14 with close = bar
index): every loss is 0 and the day-13 Wilder average gain is 13/14. -/
def risingCloses : List ℚ :=
  [0, 1, 2, 3, 4, 5, 6, 7, 8, 9, 10, 11, 12, 13, 14]

theorem risingCloses_avg_loss : avg_loss risingCloses 14 0 = 0 := by
  unfold avg_loss wilder
  norm_num [List.range_succ, risingCloses, lossAt]

theorem risingCloses_avg_gain : avg_gain risingCloses 14 0 = 13 / 14 := by
  unfold avg_gain wilder
  norm_num [List.range_succ, risingCloses, gainAt]

/-- Witness for C7: on the strictly rising series above, RSI(14) at the
first defined bar is 100 (average loss 0, average gain 13/14 > 0). -/
theorem c7_rsi_boundary_witness :
    (avg_loss risingCloses 14 0 = 0 → 0 < avg_gain risingCloses 14 0)
    ∧ (avg_gain risingCloses 14 0 = 0 → 0 < avg_loss risingCloses 14 0)
    ∧ (avg_loss risingCloses 14 0 = 0 → compute_rsi risingCloses 14 0 = some 100)
    ∧ (avg_gain risingCloses 14 0 = 0 → compute_rsi risingCloses 14 0 = some 0) := by
  have h1 : avg_loss risingCloses 14 0 = 0 → 0 < avg_gain risingCloses 14 0 := by
    intro h
    rw [risingCloses_avg_gain]
    norm_num
  have h2 : avg_gain risingCloses 14 0 = 0 → 0 < avg_loss risingCloses 14 0 := by
    intro h
    rw [risingCloses_avg_gain] at h
    norm_num at h
  obtain ⟨hA, hB⟩ := c7_rsi_boundary risingCloses 14 0 h1 h2
  exact ⟨h1, h2, hA, hB⟩

/-!
## Claim C6: behaviour of the pipeline on a short price series

`compute_all_indicators` (technical_signals.py lines 106-111) returns
the input frame unchanged — no indicator columns — whenever it is empty
or has fewer than 50 rows.  `analyze_instrument` (lines 456-499) only
checks `df.empty`: for a nonempty frame with fewer than 50 rows it
still takes the last raw row and scores it, every indicator lookup
falling back to its `row.get` default.  Both functions are total, so no
exception is raised.  The ≥ 50-row branch (the full indicator
pipeline) is outside the claims settled here and is represented by an
abstract `enriched` marker.
-/

/-- One OHLCV bar, as fetched (column names from `fetch_price_data`). -/
structure PricePoint where
  dateIdx : ℕ
  openPx : ℚ
  high : ℚ
  low : ℚ
  close : ℚ
  volume : ℚ
deriving DecidableEq

/-- Result of `compute_all_indicators`: `raw df` is the frame returned
unchanged by the `len(df) < 50` guard (no indicator columns);
`enriched df` marks the ≥ 50-row branch, whose added columns are not
modelled here. -/
inductive IndicatorFrame where
  | raw (df : List PricePoint)
  | enriched (df : List PricePoint)
deriving DecidableEq

/-- `compute_all_indicators` (lines 106-111): `if df.empty or len(df) < 50:
return df`. -/
def compute_all_indicators (df : List PricePoint) : IndicatorFrame :=
  if df.length < 50 then .raw df else .enriched df

/-- A raw frame row seen through `compute_composite_score`'s
`row.get(...)` calls: every indicator key is missing. -/
def rawRow : Row := {}

/-- Result of `analyze_instrument` on fetched data: the explicit
`{"error": "No data available"}` dict for an empty frame, or a result
dict carrying the rounded close and the composite scores.  The ≥ 50-row
branch carries the un-modelled indicator-based result. -/
inductive AnalyzeResult where
  | errorNoData
  | scored (close : ℚ) (scores : Scores)
  | scoredWithIndicators
deriving DecidableEq

/-- `analyze_instrument` (lines 456-499) applied to already-fetched
data: empty frames short-circuit to the error dict; otherwise the frame
goes through `compute_all_indicators` and the last row is scored.  For
a frame the guard returned unchanged, every indicator lookup in
`compute_composite_score` misses (`rawRow`). -/
def analyze_instrument (df : List PricePoint) : AnalyzeResult :=
  if df = [] then .errorNoData
  else
    match compute_all_indicators df with
    | .raw d => .scored (pyRound2 ((d.getLast?.map PricePoint.close).getD 0))
        (compute_composite_score rawRow)
    | .enriched _ => .scoredWithIndicators

/-- A one-bar price series. -/
def oneBar : PricePoint :=
  { dateIdx := 0, openPx := 10, high := 10, low := 10, close := 10, volume := 100 }

/-- Counterexample to claim C6 as stated: a nonempty series with fewer
than 50 points (here, 1 point) does not produce an insufficient-data
result — the only explicit error result in the code is the
`"No data available"` dict for an empty frame — instead
`analyze_instrument` scores the last raw row (composite -9, signal
HOLD) as if it were a full snapshot. -/
theorem c6_counterexample :
    ([oneBar] : List PricePoint).length < 50
    ∧ analyze_instrument [oneBar] ≠ AnalyzeResult.errorNoData
    ∧ analyze_instrument [oneBar]
        = AnalyzeResult.scored 10 (compute_composite_score rawRow)
    ∧ (compute_composite_score rawRow).signal = "HOLD" := by
  refine ⟨by norm_num, ?_, ?_, ?_⟩
  · intro h
    simp [analyze_instrument, compute_all_indicators] at h
  · simp [analyze_instrument, compute_all_indicators, oneBar]
    norm_num [pyRound2, pyRound]
  · simp [compute_composite_score, signalOf, compositeRaw, trend_score,
      momentum_score, volume_score, volatility_score, relative_strength_score,
      trendRaw, momentumRaw, volumeRaw, volatilityRaw, rsRaw, rawRow, clamp,
      weight_trend, weight_momentum, weight_volume, weight_volatility,
      weight_relative_strength] <;> norm_num

/-- Claim C6 (amended): for a price series with fewer than 50 points,
`compute_all_indicators` returns the frame unchanged with no indicator
values added, and `analyze_instrument` never raises: it returns the
explicit no-data result for an empty series, but for a nonempty short
series it proceeds to score the last raw row (all indicator lookups
falling back to defaults) and returns an ordinary scored result with no
insufficient-data marker. -/
theorem c6_short_series_behaviour (df : List PricePoint) (hlen : df.length < 50) :
    compute_all_indicators df = IndicatorFrame.raw df
    ∧ (df = [] → analyze_instrument df = AnalyzeResult.errorNoData)
    ∧ (df ≠ [] → analyze_instrument df
        = AnalyzeResult.scored (pyRound2 ((df.getLast?.map PricePoint.close).getD 0))
            (compute_composite_score rawRow)) := by
  have hraw : compute_all_indicators df = IndicatorFrame.raw df := by
    unfold compute_all_indicators
    rw [if_pos hlen]
  refine ⟨hraw, ?_, ?_⟩
  · intro hnil
    unfold analyze_instrument
    rw [if_pos hnil]
  · intro hne
    unfold analyze_instrument
    rw [if_neg hne, hraw]

/-- Witness for C6 (amended) at the concrete one-bar series. -/
theorem c6_short_series_behaviour_witness :
    ([oneBar] : List PricePoint).length < 50
    ∧ (compute_all_indicators [oneBar] = IndicatorFrame.raw [oneBar]
      ∧ (([oneBar] : List PricePoint) = [] →
          analyze_instrument [oneBar] = AnalyzeResult.errorNoData)
      ∧ (([oneBar] : List PricePoint) ≠ [] →
          analyze_instrument [oneBar]
            = AnalyzeResult.scored
                (pyRound2 ((([oneBar] : List PricePoint).getLast?.map PricePoint.close).getD 0))
                (compute_composite_score rawRow))) :=
  ⟨by norm_num, c6_short_series_behaviour [oneBar] (by norm_num)⟩

/-!
## The mock recommendation engine (src/agents/mock_engine.py)

`mock_generate_recommendations(fm_directives, technical_signals,
sector_signals, client, holdings)` is modelled below.  The Python dicts
become records whose fields are `Option`-typed exactly where the code
reads them with `dict.get`; every `.get(k, d)` is `Option.getD`.
Recommendations carry `recNum`, the value of `rec_count` when the
record was created; the Python `rec_id` string `f"REC-{rec_count:03d}"`
is a fixed injective rendering of that counter and is not modelled
separately.  The free-text fields (`instrument` name, `reasoning`,
`expected_impact`) are write-only prose and are omitted.
-/

/-- A fund-manager directive dict. -/
structure Directive where
  id : Option String := none
  action : Option String := none
  target_type : Option String := none
  target : Option String := none
  magnitude : Option String := none
  applies_to : Option String := none
deriving DecidableEq

/-- One entry of the `technical_signals` map. -/
structure Tech where
  composite_score : Option ℚ := none
  signal : Option String := none
deriving DecidableEq

/-- The `technical_signals` dict: instrument code → tech dict. -/
def TechMap : Type := List (String × Tech)

/-- One entry of the `sector_signals` list. -/
structure SectorSig where
  sector : Option String := none
  composite_score : Option ℚ := none
  signal : Option String := none
deriving DecidableEq

/-- A client dict. -/
structure Client where
  client_id : Option String := none
  risk_profile : Option String := none
  strategy_type : Option String := none
  total_aum : Option ℚ := none
deriving DecidableEq

/-- A holding dict. -/
structure Holding where
  instrument_code : Option String := none
  sector_tag : Option String := none
  current_value : Option ℚ := none
  allocation_pct : Option ℚ := none
deriving DecidableEq

/-- A recommendation dict (free-text prose fields omitted). -/
structure Recommendation where
  recNum : ℕ
  priority : String
  action : String
  instrument_code : String
  sector : String
  amount : ℤ
  target_instrument : Option String
  fm_directive_ref : Option String
  technical_score : ℚ
  technical_signal : String
  confidence : ℤ
  allocation_before_pct : ℚ
  allocation_after_pct : ℚ
deriving DecidableEq

/-- `technical_signals.get(code, {})`. -/
def techEntry (m : TechMap) (code : String) : Option Tech :=
  List.lookup code m

/-- `technical_signals.get(code, {}).get("composite_score", 0)`. -/
def techScoreOf (m : TechMap) (code : String) : ℚ :=
  ((techEntry m code).bind Tech.composite_score).getD 0

/-- `technical_signals.get(code, {}).get("signal", "N/A")`. -/
def techSignalStr (m : TechMap) (code : String) : String :=
  ((techEntry m code).bind Tech.signal).getD "N/A"

/-- `technical_signals.get(code, {}).get("signal")` (no default). -/
def techSignalOpt (m : TechMap) (code : String) : Option String :=
  (techEntry m code).bind Tech.signal

/-- Add `v` to the entry of `k` in an insertion-ordered dict
(`d[k] = d.get(k, 0) + v`). -/
def bumpAlloc (m : List (String × ℚ)) (k : String) (v : ℚ) : List (String × ℚ) :=
  match m with
  | [] => [(k, v)]
  | (k0, v0) :: rest => if k0 = k then (k0, v0 + v) :: rest else (k0, v0) :: bumpAlloc rest k v

/-- The sector-allocation map built at the top of
`mock_generate_recommendations` (lines 156-159): sum of
`allocation_pct` grouped by `sector_tag` (default key OTHER). -/
def sectorAlloc (holdings : List Holding) : List (String × ℚ) :=
  holdings.foldl (fun m h => bumpAlloc m (h.sector_tag.getD "OTHER") (h.allocation_pct.getD 0)) []

/-- The applicability filter (lines 169-179): the five `continue`
checks, in order. -/
def applies (d : Directive) (client : Client) (salloc : List (String × ℚ)) : Bool :=
  let a := d.applies_to.getD "ALL_CLIENTS"
  let risk := client.risk_profile.getD "MODERATE"
  if a = "MOMENTUM_STRATEGY" ∧ ¬ client.strategy_type = some "MOMENTUM" then false
  else if a = "CONSERVATIVE_CLIENTS" ∧ ¬ risk = "CONSERVATIVE" then false
  else if a = "AGGRESSIVE_CLIENTS" ∧ ¬ risk = "AGGRESSIVE" then false
  else if a = "CLIENTS_WITHOUT_GOLD" ∧ ¬ (List.lookup "GOLD" salloc) = none then false
  else if a = "CLIENTS_WITH_GOLD" ∧ (List.lookup "GOLD" salloc) = none then false
  else true

/-- Remove every leftmost, non-overlapping occurrence of `pat` from a
character list — `s.replace(pat, "")` for a nonempty pattern (an empty
pattern removes nothing, which the two call sites never exercise). -/
def removePat (pat : List Char) : List Char → List Char
  | [] => []
  | c :: cs =>
      if pat ≠ [] ∧ pat.isPrefixOf (c :: cs) then
        removePat pat (List.drop pat.length (c :: cs))
      else c :: removePat pat cs
termination_by s => s.length
decreasing_by
  · rename_i h
    simp only [List.length_drop, List.length_cons]
    have h1 : 1 ≤ pat.length := by
      cases pat
      · simp at h
      · simp
    omega
  · simp only [List.length_cons]
    omega

/-- Python `s.replace(pat, "")`. -/
def pyReplaceDel (s pat : String) : String := ⟨removePat pat.data s.data⟩

/-- Python `s.upper()` (ASCII, as all tags and targets here are). -/
def pyUpper (s : String) : String := ⟨s.data.map Char.toUpper⟩

/-- Decimal-digit accumulator for `pyInt`. -/
def digitsVal : ℤ → List Char → Option ℤ
  | acc, [] => some acc
  | acc, c :: cs =>
      if c.isDigit then digitsVal (acc * 10 + ((c.toNat : ℤ) - ('0'.toNat : ℤ))) cs
      else none

/-- Python `int(s)` on the magnitude strings this engine sees: an
optional minus sign followed by at least one decimal digit; anything
else raises, i.e. returns `none` here.  (Python `int` also tolerates
surrounding whitespace, an explicit plus sign and underscores; the
magnitudes produced by the parser never contain those.) -/
def pyInt (s : String) : Option ℤ :=
  match s.data with
  | [] => none
  | '-' :: rest => if rest = [] then none else (digitsVal 0 rest).map (fun v => -v)
  | l => digitsVal 0 l

/-- `pat in s` over characters (Python substring test; the empty
pattern is always contained). -/
def containsSub : List Char → List Char → Bool
  | [], pat => pat.isEmpty
  | s@(_ :: cs), pat => pat.isPrefixOf s || containsSub cs pat

/-- Python `pat in s` for strings. -/
def strContains (s pat : String) : Bool := containsSub s.data pat.data

/-- Target resolution (lines 182-189): SECTOR and ASSET_CLASS directives
match on the (upper-cased) sector tag; STOCK directives match when the
upper-cased code contains the upper-cased target as a substring. -/
def matchesTarget (d : Directive) (h : Holding) : Bool :=
  let tt := d.target_type.getD ""
  let tgt := d.target.getD ""
  if tt = "SECTOR" then pyUpper (h.sector_tag.getD "") = pyUpper tgt
  else if tt = "STOCK" then strContains (pyUpper (h.instrument_code.getD "")) (pyUpper tgt)
  else if tt = "ASSET_CLASS" then pyUpper (h.sector_tag.getD "") = pyUpper tgt
  else false

/-- `pct` for a REDUCE_EXPOSURE directive (lines 195-200): 50 unless the
magnitude is a nonempty string that parses as an int after dropping
percent signs. -/
def reducePct (mag : Option String) : ℤ :=
  if mag.getD "" = "" then 50
  else
    match pyInt (pyReplaceDel (mag.getD "") "%") with
    | some v => v
    | none => 50

/-- The recommendation built per matched holding of a REDUCE_EXPOSURE
directive (lines 193-237). -/
def buildReduce (d : Directive) (m : TechMap) (n : ℕ) (h : Holding) : Recommendation :=
  let pct := reducePct d.magnitude
  let code := h.instrument_code.getD ""
  let ts := techScoreOf m code
  let conf : ℤ := if ts < -20 then 85 else if ts < 0 then 70 else 50
  let ab := h.allocation_pct.getD 0
  { recNum := n
    priority := if 70 < conf then "HIGH" else "MEDIUM"
    action := "REDEEM"
    instrument_code := code
    sector := h.sector_tag.getD ""
    amount := pyRound (h.current_value.getD 0 * (pct : ℚ) / 100)
    target_instrument := none
    fm_directive_ref := d.id
    technical_score := ts
    technical_signal := techSignalStr m code
    confidence := conf
    allocation_before_pct := ab
    allocation_after_pct := pyRound1 (ab * (1 - (pct : ℚ) / 100)) }

/-- The single recommendation of an INCREASE_EXPOSURE sector directive
(lines 239-268), built when the current sector exposure is below 15%. -/
def buildIncrease (d : Directive) (ss : List SectorSig) (tgt : String)
    (aum currentExposure : ℚ) (n : ℕ) : Recommendation :=
  let sectorTech := ss.find? (fun s => pyUpper (s.sector.getD "") == pyUpper tgt)
  let ts := (sectorTech.bind SectorSig.composite_score).getD 0
  let conf : ℤ := if 20 < ts then 75 else 55
  { recNum := n
    priority := if 70 < conf then "HIGH" else "MEDIUM"
    action := "INVEST"
    instrument_code := ""
    sector := pyUpper tgt
    amount := pyRound (aum * (5 / 100))
    target_instrument := none
    fm_directive_ref := d.id
    technical_score := ts
    technical_signal := (sectorTech.bind SectorSig.signal).getD "N/A"
    confidence := conf
    allocation_before_pct := currentExposure
    allocation_after_pct := pyRound1 (currentExposure + 5) }

/-- `target_pct` for an INCREASE_ALLOCATION GOLD directive
(lines 273-278): 20 unless the magnitude parses after dropping percent
signs and `TO_` markers. -/
def goldTargetPct (mag : Option String) : ℤ :=
  if mag.getD "" = "" then 20
  else
    match pyInt (pyReplaceDel (pyReplaceDel (mag.getD "") "%") "TO_") with
    | some v => v
    | none => 20

/-- The single recommendation of an INCREASE_ALLOCATION GOLD directive
(lines 270-301). -/
def buildGold (d : Directive) (aum currentGold : ℚ) (n : ℕ) : Recommendation :=
  let tp := goldTargetPct d.magnitude
  { recNum := n
    priority := "HIGH"
    action := "INVEST"
    instrument_code := "NSE:GOLDBEES"
    sector := "GOLD"
    amount := pyRound (aum * ((tp : ℚ) - currentGold) / 100)
    target_instrument := some "Nippon India Gold BeES / SBI Gold Fund"
    fm_directive_ref := d.id
    technical_score := 0
    technical_signal := "N/A"
    confidence := 70
    allocation_before_pct := currentGold
    allocation_after_pct := (tp : ℚ) }

/-- The recommendation built per matched holding of a HOLD directive
(lines 303-323). -/
def buildHold (d : Directive) (m : TechMap) (n : ℕ) (h : Holding) : Recommendation :=
  let code := h.instrument_code.getD ""
  { recNum := n
    priority := "LOW"
    action := "HOLD"
    instrument_code := code
    sector := h.sector_tag.getD ""
    amount := 0
    target_instrument := none
    fm_directive_ref := d.id
    technical_score := techScoreOf m code
    technical_signal := techSignalStr m code
    confidence := 60
    allocation_before_pct := h.allocation_pct.getD 0
    allocation_after_pct := h.allocation_pct.getD 0 }

/-- The coverage-pass recommendation for a holding with a STRONG signal
and no covering recommendation (lines 325-351). -/
def buildCover (m : TechMap) (n : ℕ) (h : Holding) (s : String) : Recommendation :=
  let code := h.instrument_code.getD ""
  { recNum := n
    priority := "MEDIUM"
    action := if s = "STRONG_SELL" then "REVIEW" else "ACCUMULATE"
    instrument_code := code
    sector := h.sector_tag.getD ""
    amount := 0
    target_instrument := none
    fm_directive_ref := none
    technical_score := ((techEntry m code).bind Tech.composite_score).getD 0
    technical_signal := s
    confidence := 45
    allocation_before_pct := h.allocation_pct.getD 0
    allocation_after_pct := h.allocation_pct.getD 0 }

/-- The `for h in matching_holdings` loops: `rec_count` is incremented
before each recommendation is built. -/
def buildSeq (f : ℕ → Holding → Recommendation) (n : ℕ) : List Holding → List Recommendation
  | [] => []
  | h :: hs => f (n + 1) h :: buildSeq f (n + 1) hs

/-- The recommendations contributed by one directive (the body of the
`for directive in fm_directives` loop, lines 162-323), given the value
`n` of `rec_count` on entry. -/
def dirRecs (m : TechMap) (ss : List SectorSig) (client : Client)
    (salloc : List (String × ℚ)) (holdings : List Holding) (n : ℕ)
    (d : Directive) : List Recommendation :=
  if applies d client salloc then
    if d.action.getD "" = "REDUCE_EXPOSURE" ∧ ¬ holdings.filter (matchesTarget d) = [] then
      buildSeq (buildReduce d m) n (holdings.filter (matchesTarget d))
    else if d.action.getD "" = "INCREASE_EXPOSURE" ∧ d.target_type.getD "" = "SECTOR" then
      if (List.lookup (pyUpper (d.target.getD "")) salloc).getD 0 < 15 then
        [buildIncrease d ss (d.target.getD "") (client.total_aum.getD 0)
          ((List.lookup (pyUpper (d.target.getD "")) salloc).getD 0) (n + 1)]
      else []
    else if d.action.getD "" = "INCREASE_ALLOCATION" ∧ d.target.getD "" = "GOLD" then
      if List.lookup "GOLD" salloc = none ∨ (List.lookup "GOLD" salloc).getD 0 < 15 then
        [buildGold d (client.total_aum.getD 0) ((List.lookup "GOLD" salloc).getD 0) (n + 1)]
      else []
    else if d.action.getD "" = "HOLD" then
      buildSeq (buildHold d m) n (holdings.filter (matchesTarget d))
    else []
  else []

/-- One step of the directive loop: append this directive's
recommendations and advance `rec_count`. -/
def phase1Step (m : TechMap) (ss : List SectorSig) (client : Client)
    (salloc : List (String × ℚ)) (holdings : List Holding)
    (st : ℕ × List Recommendation) (d : Directive) : ℕ × List Recommendation :=
  let new := dirRecs m ss client salloc holdings st.1 d
  (st.1 + new.length, st.2 ++ new)

/-- The directive-driven phase (lines 162-323), starting from
`rec_count = 0` and an empty list. -/
def phase1 (dirs : List Directive) (m : TechMap) (ss : List SectorSig)
    (client : Client) (salloc : List (String × ℚ)) (holdings : List Holding) :
    ℕ × List Recommendation :=
  dirs.foldl (phase1Step m ss client salloc holdings) (0, [])

/-- One step of the coverage pass (lines 326-351): a holding whose
technical signal is STRONG_SELL or STRONG_BUY and whose code no
existing recommendation references gets a standalone alert. -/
def coverStep (m : TechMap) (st : ℕ × List Recommendation) (h : Holding) :
    ℕ × List Recommendation :=
  match techSignalOpt m (h.instrument_code.getD "") with
  | some s =>
      if (s = "STRONG_SELL" ∨ s = "STRONG_BUY")
          ∧ ∀ r ∈ st.2, ¬ r.instrument_code = h.instrument_code.getD "" then
        (st.1 + 1, st.2 ++ [buildCover m (st.1 + 1) h s])
      else st
  | none => st

/-- The coverage pass over all holdings. -/
def coverFold (m : TechMap) (holdings : List Holding)
    (st : ℕ × List Recommendation) : ℕ × List Recommendation :=
  holdings.foldl (coverStep m) st

/-- Stable insertion placing `r` before the first element whose
confidence is not larger — the position `r` occupies in the output of
Python's stable `sorted(..., key=lambda x: -x["confidence"])` relative
to later-generated records. -/
def insertDesc (r : Recommendation) : List Recommendation → List Recommendation
  | [] => [r]
  | x :: xs => if r.confidence < x.confidence then x :: insertDesc r xs else r :: x :: xs

/-- Stable descending sort by confidence (extensionally Python's
`sorted(recommendations, key=lambda x: -x["confidence"])`, which is
stable). -/
def stableSortDesc : List Recommendation → List Recommendation
  | [] => []
  | x :: xs => insertDesc x (stableSortDesc xs)

/-- `mock_generate_recommendations` (mock_engine.py lines 144-369),
restricted to its `"recommendations"` entry: directive phase, coverage
pass, then the stable sort descending by confidence. -/
def mock_generate_recommendations (dirs : List Directive) (m : TechMap)
    (ss : List SectorSig) (client : Client) (holdings : List Holding) :
    List Recommendation :=
  stableSortDesc
    (coverFold m holdings (phase1 dirs m ss client (sectorAlloc holdings) holdings)).2

/-!
### Sorting lemmas
-/

theorem insertDesc_perm (r : Recommendation) (l : List Recommendation) :
    List.Perm (insertDesc r l) (r :: l) := by
  induction l with
  | nil => exact List.Perm.refl _
  | cons x xs ih =>
      unfold insertDesc
      split_ifs
      · exact List.Perm.trans (List.Perm.cons x ih) (List.Perm.swap r x xs)
      · exact List.Perm.refl _

theorem mem_insertDesc {a r : Recommendation} {l : List Recommendation} :
    a ∈ insertDesc r l ↔ a = r ∨ a ∈ l := by
  rw [(insertDesc_perm r l).mem_iff]
  exact List.mem_cons

theorem stableSortDesc_perm (l : List Recommendation) :
    List.Perm (stableSortDesc l) l := by
  induction l with
  | nil => exact List.Perm.refl _
  | cons x xs ih =>
      exact List.Perm.trans (insertDesc_perm x (stableSortDesc xs)) (List.Perm.cons x ih)

theorem mem_stableSortDesc {a : Recommendation} {l : List Recommendation} :
    a ∈ stableSortDesc l ↔ a ∈ l :=
  (stableSortDesc_perm l).mem_iff

/-- `a` legitimately precedes `b` in the sorted output: larger
confidence, or equal confidence and generated earlier. -/
def stableBefore (a b : Recommendation) : Prop :=
  b.confidence < a.confidence ∨ (a.confidence = b.confidence ∧ a.recNum < b.recNum)

theorem pairwise_insertDesc {r : Recommendation} {l : List Recommendation}
    (hp : l.Pairwise stableBefore)
    (hr : ∀ y ∈ l, r.confidence = y.confidence → r.recNum < y.recNum) :
    (insertDesc r l).Pairwise stableBefore := by
  induction l with
  | nil => simp [insertDesc, stableBefore]
  | cons x xs ih =>
      rcases List.pairwise_cons.mp hp with ⟨hx, hxs⟩
      unfold insertDesc
      split_ifs with hc
      · apply List.pairwise_cons.mpr
        constructor
        · intro z hz
          rcases mem_insertDesc.mp hz with rfl | hz'
          · exact Or.inl hc
          · exact hx z hz'
        · exact ih hxs (fun y hy he => hr y (List.mem_cons_of_mem x hy) he)
      · apply List.pairwise_cons.mpr
        constructor
        · intro z hz
          have hzc : z.confidence ≤ x.confidence := by
            rcases List.mem_cons.mp hz with rfl | hz'
            · exact le_refl _
            · rcases hx z hz' with hlt | ⟨he, _⟩
              · exact le_of_lt hlt
              · exact le_of_eq he.symm
          push_neg at hc
          rcases lt_or_eq_of_le (le_trans hzc hc) with hlt | heq
          · exact Or.inl hlt
          · exact Or.inr ⟨heq.symm, hr z hz heq.symm⟩
        · exact hp

theorem pairwise_stableSortDesc {l : List Recommendation}
    (h : l.Pairwise (fun a b => a.recNum < b.recNum)) :
    (stableSortDesc l).Pairwise stableBefore := by
  induction l with
  | nil => simp [stableSortDesc]
  | cons x xs ih =>
      rcases List.pairwise_cons.mp h with ⟨hx, hxs⟩
      exact pairwise_insertDesc (ih hxs)
        (fun y hy _ => hx y (mem_stableSortDesc.mp hy))

/-!
### Counter and membership lemmas for the two engine phases
-/

theorem buildSeq_length (f : ℕ → Holding → Recommendation) (n : ℕ) :
    ∀ l : List Holding, (buildSeq f n l).length = l.length := by
  intro l
  induction l generalizing n with
  | nil => rfl
  | cons h hs ih => simp [buildSeq, ih]

theorem buildSeq_mem (f : ℕ → Holding → Recommendation) :
    ∀ (l : List Holding) (n : ℕ) (h : Holding), h ∈ l → ∃ k, f k h ∈ buildSeq f n l
  | [], _, _, hm => absurd hm (List.not_mem_nil _)
  | h0 :: hs, n, h, hm => by
      rcases List.mem_cons.mp hm with rfl | hm'
      · exact ⟨n + 1, List.mem_cons_self _ _⟩
      · rcases buildSeq_mem f hs (n + 1) h hm' with ⟨k, hk⟩
        exact ⟨k, List.mem_cons_of_mem _ hk⟩

theorem buildSeq_bounds (f : ℕ → Holding → Recommendation)
    (hf : ∀ k h, (f k h).recNum = k) :
    ∀ (l : List Holding) (n : ℕ), ∀ r ∈ buildSeq f n l,
      n < r.recNum ∧ r.recNum ≤ n + l.length
  | [], _, r, hr => absurd hr (List.not_mem_nil _)
  | h0 :: hs, n, r, hr => by
      rcases List.mem_cons.mp hr with rfl | hr'
      · rw [hf]
        simp
      · rcases buildSeq_bounds f hf hs (n + 1) r hr' with ⟨h1, h2⟩
        simp only [List.length_cons]
        omega

theorem buildSeq_pairwise (f : ℕ → Holding → Recommendation)
    (hf : ∀ k h, (f k h).recNum = k) :
    ∀ (l : List Holding) (n : ℕ),
      (buildSeq f n l).Pairwise (fun a b => a.recNum < b.recNum)
  | [], _ => List.Pairwise.nil
  | h0 :: hs, n => by
      apply List.pairwise_cons.mpr
      constructor
      · intro r hr
        have h1 := (buildSeq_bounds f hf hs (n + 1) r hr).1
        rw [hf]
        omega
      · exact buildSeq_pairwise f hf hs (n + 1)

theorem buildReduce_recNum (d : Directive) (m : TechMap) :
    ∀ k h, (buildReduce d m k h).recNum = k := fun _ _ => rfl

theorem buildHold_recNum (d : Directive) (m : TechMap) :
    ∀ k h, (buildHold d m k h).recNum = k := fun _ _ => rfl

theorem buildIncrease_recNum (d : Directive) (ss : List SectorSig) (tgt : String)
    (aum cur : ℚ) (n : ℕ) : (buildIncrease d ss tgt aum cur n).recNum = n := rfl

theorem buildGold_recNum (d : Directive) (aum cur : ℚ) (n : ℕ) :
    (buildGold d aum cur n).recNum = n := rfl

theorem dirRecs_bounds (m : TechMap) (ss : List SectorSig) (client : Client)
    (salloc : List (String × ℚ)) (holdings : List Holding) (n : ℕ) (d : Directive) :
    ∀ r ∈ dirRecs m ss client salloc holdings n d,
      n < r.recNum ∧ r.recNum ≤ n + (dirRecs m ss client salloc holdings n d).length := by
  unfold dirRecs
  split_ifs <;> intro r hr
  · rw [buildSeq_length]
    exact buildSeq_bounds _ (buildReduce_recNum d m) _ n r hr
  · rw [List.mem_singleton.mp hr]
    rw [List.length_singleton, buildIncrease_recNum]
    omega
  · exact absurd hr (List.not_mem_nil _)
  · rw [List.mem_singleton.mp hr]
    rw [List.length_singleton, buildGold_recNum]
    omega
  · exact absurd hr (List.not_mem_nil _)
  · rw [buildSeq_length]
    exact buildSeq_bounds _ (buildHold_recNum d m) _ n r hr
  · exact absurd hr (List.not_mem_nil _)
  · exact absurd hr (List.not_mem_nil _)

theorem dirRecs_pairwise (m : TechMap) (ss : List SectorSig) (client : Client)
    (salloc : List (String × ℚ)) (holdings : List Holding) (n : ℕ) (d : Directive) :
    (dirRecs m ss client salloc holdings n d).Pairwise (fun a b => a.recNum < b.recNum) := by
  unfold dirRecs
  split_ifs
  · exact buildSeq_pairwise _ (buildReduce_recNum d m) _ n
  · simp
  · exact List.Pairwise.nil
  · simp
  · exact List.Pairwise.nil
  · exact buildSeq_pairwise _ (buildHold_recNum d m) _ n
  · exact List.Pairwise.nil
  · exact List.Pairwise.nil

/-- Invariant tying `rec_count` to the recommendations built so far. -/
def recBound (st : ℕ × List Recommendation) : Prop :=
  (∀ r ∈ st.2, r.recNum ≤ st.1) ∧ st.2.Pairwise (fun a b => a.recNum < b.recNum)

theorem phase1Step_bound (m : TechMap) (ss : List SectorSig) (client : Client)
    (salloc : List (String × ℚ)) (holdings : List Holding)
    {st : ℕ × List Recommendation} (hst : recBound st) (d : Directive) :
    recBound (phase1Step m ss client salloc holdings st d) := by
  obtain ⟨hb, hp⟩ := hst
  constructor
  · intro r hr
    rcases List.mem_append.mp hr with h | h
    · have := hb r h
      show r.recNum ≤ st.1 + (dirRecs m ss client salloc holdings st.1 d).length
      omega
    · have := (dirRecs_bounds m ss client salloc holdings st.1 d r h).2
      show r.recNum ≤ st.1 + (dirRecs m ss client salloc holdings st.1 d).length
      omega
  · apply List.pairwise_append.mpr
    refine ⟨hp, dirRecs_pairwise m ss client salloc holdings st.1 d, ?_⟩
    intro a ha b hb'
    have h1 := hb a ha
    have h2 := (dirRecs_bounds m ss client salloc holdings st.1 d b hb').1
    omega

theorem phase1_foldl_bound (m : TechMap) (ss : List SectorSig) (client : Client)
    (salloc : List (String × ℚ)) (holdings : List Holding) :
    ∀ (ds : List Directive) (st : ℕ × List Recommendation), recBound st →
      recBound (List.foldl (phase1Step m ss client salloc holdings) st ds)
  | [], _, hst => hst
  | d :: rest, st, hst =>
      phase1_foldl_bound m ss client salloc holdings rest _
        (phase1Step_bound m ss client salloc holdings hst d)

theorem buildCover_recNum (m : TechMap) (n : ℕ) (h : Holding) (s : String) :
    (buildCover m n h s).recNum = n := rfl

theorem coverStep_bound (m : TechMap) {st : ℕ × List Recommendation}
    (hst : recBound st) (h : Holding) : recBound (coverStep m st h) := by
  obtain ⟨hb, hp⟩ := hst
  unfold coverStep
  cases techSignalOpt m (h.instrument_code.getD "") with
  | none => exact ⟨hb, hp⟩
  | some s =>
      dsimp only
      split_ifs with hc
      · constructor
        · intro r hr
          rcases List.mem_append.mp hr with h' | h'
          · have := hb r h'
            show r.recNum ≤ st.1 + 1
            omega
          · rw [List.mem_singleton.mp h']
            exact le_refl _
        · apply List.pairwise_append.mpr
          refine ⟨hp, by simp, ?_⟩
          intro a ha b hb'
          rw [List.mem_singleton.mp hb']
          have := hb a ha
          show a.recNum < (buildCover m (st.1 + 1) h s).recNum
          rw [buildCover_recNum]
          omega
      · exact ⟨hb, hp⟩

theorem coverFold_bound (m : TechMap) :
    ∀ (hs : List Holding) (st : ℕ × List Recommendation), recBound st →
      recBound (coverFold m hs st)
  | [], _, hst => hst
  | h :: rest, st, hst => coverFold_bound m rest _ (coverStep_bound m hst h)

theorem engine_pairwise (dirs : List Directive) (m : TechMap) (ss : List SectorSig)
    (client : Client) (holdings : List Holding) :
    ((coverFold m holdings
        (phase1 dirs m ss client (sectorAlloc holdings) holdings)).2).Pairwise
      (fun a b => a.recNum < b.recNum) :=
  (coverFold_bound m holdings _
    (phase1_foldl_bound m ss client (sectorAlloc holdings) holdings dirs (0, [])
      ⟨fun r hr => absurd hr (List.not_mem_nil _), List.Pairwise.nil⟩)).2

theorem phase1_foldl_mem (m : TechMap) (ss : List SectorSig) (client : Client)
    (salloc : List (String × ℚ)) (holdings : List Holding) {r : Recommendation} :
    ∀ (ds : List Directive) (st : ℕ × List Recommendation), r ∈ st.2 →
      r ∈ (List.foldl (phase1Step m ss client salloc holdings) st ds).2
  | [], _, hr => hr
  | d :: rest, st, hr =>
      phase1_foldl_mem m ss client salloc holdings rest _ (List.mem_append_left _ hr)

theorem coverStep_mem (m : TechMap) {st : ℕ × List Recommendation}
    {r : Recommendation} (hr : r ∈ st.2) (h : Holding) : r ∈ (coverStep m st h).2 := by
  unfold coverStep
  cases techSignalOpt m (h.instrument_code.getD "") with
  | none => exact hr
  | some s =>
      dsimp only
      split_ifs
      · exact List.mem_append_left _ hr
      · exact hr

theorem coverFold_mem (m : TechMap) {r : Recommendation} :
    ∀ (hs : List Holding) (st : ℕ × List Recommendation), r ∈ st.2 →
      r ∈ (coverFold m hs st).2
  | [], _, hr => hr
  | h :: rest, st, hr => coverFold_mem m rest _ (coverStep_mem m hr h)

theorem phase1_dir_contrib (m : TechMap) (ss : List SectorSig) (client : Client)
    (salloc : List (String × ℚ)) (holdings : List Holding) {d : Directive} :
    ∀ (ds : List Directive) (st : ℕ × List Recommendation), d ∈ ds →
      ∃ n, ∀ r ∈ dirRecs m ss client salloc holdings n d,
        r ∈ (List.foldl (phase1Step m ss client salloc holdings) st ds).2
  | [], _, hd => absurd hd (List.not_mem_nil _)
  | d0 :: rest, st, hd => by
      rcases List.mem_cons.mp hd with rfl | hd'
      · refine ⟨st.1, fun r hr => ?_⟩
        exact phase1_foldl_mem m ss client salloc holdings rest _
          (List.mem_append_right _ hr)
      · exact phase1_dir_contrib m ss client salloc holdings rest _ hd'

/-!
### Coverage-pass lemmas
-/

/-- The shape of a coverage-pass recommendation for an uncovered strong
signal `s` on instrument `code`. -/
def coverShape (code s : String) (r : Recommendation) : Prop :=
  r.instrument_code = code ∧ r.confidence = 45 ∧ r.priority = "MEDIUM"
  ∧ r.fm_directive_ref = none ∧ r.technical_signal = s
  ∧ r.action = (if s = "STRONG_SELL" then "REVIEW" else "ACCUMULATE")
  ∧ r.amount = 0

theorem buildCover_shape (m : TechMap) (n : ℕ) (h : Holding) (s : String) :
    coverShape (h.instrument_code.getD "") s (buildCover m n h s) :=
  ⟨rfl, rfl, rfl, rfl, rfl, rfl, rfl⟩

theorem coverFold_exists_code (m : TechMap) {h : Holding} {s : String}
    (hsig : techSignalOpt m (h.instrument_code.getD "") = some s)
    (hstrong : s = "STRONG_SELL" ∨ s = "STRONG_BUY") :
    ∀ (hs : List Holding) (st : ℕ × List Recommendation), h ∈ hs →
      ∃ r ∈ (coverFold m hs st).2, r.instrument_code = h.instrument_code.getD ""
  | [], _, hm => absurd hm (List.not_mem_nil _)
  | h0 :: rest, st, hm => by
      rcases List.mem_cons.mp hm with rfl | hm'
      · by_cases hcov : ∀ r ∈ st.2, ¬ r.instrument_code = h.instrument_code.getD ""
        · have hstep : coverStep m st h
              = (st.1 + 1, st.2 ++ [buildCover m (st.1 + 1) h s]) := by
            unfold coverStep
            rw [hsig]
            dsimp only
            rw [if_pos ⟨hstrong, hcov⟩]
          refine ⟨buildCover m (st.1 + 1) h s, ?_, rfl⟩
          apply coverFold_mem m rest (coverStep m st h)
          rw [hstep]
          exact List.mem_append_right _ (List.mem_singleton.mpr rfl)
        · push_neg at hcov
          obtain ⟨r, hr, hrc⟩ := hcov
          exact ⟨r, coverFold_mem m rest _ (coverStep_mem m hr h), hrc⟩
      · exact coverFold_exists_code m hsig hstrong rest (coverStep m st h0) hm'

theorem coverFold_exists_shape (m : TechMap) {h : Holding} {s : String}
    (hsig : techSignalOpt m (h.instrument_code.getD "") = some s)
    (hstrong : s = "STRONG_SELL" ∨ s = "STRONG_BUY") :
    ∀ (hs : List Holding) (st : ℕ × List Recommendation), h ∈ hs →
      ((∀ r ∈ st.2, ¬ r.instrument_code = h.instrument_code.getD "")
        ∨ ∃ r ∈ st.2, coverShape (h.instrument_code.getD "") s r) →
      ∃ r ∈ (coverFold m hs st).2, coverShape (h.instrument_code.getD "") s r
  | [], _, hm, _ => absurd hm (List.not_mem_nil _)
  | h0 :: rest, st, hm, hinv => by
      rcases hinv with hclean | ⟨r, hr, hshape⟩
      · rcases List.mem_cons.mp hm with rfl | hm'
        · have hstep : coverStep m st h
              = (st.1 + 1, st.2 ++ [buildCover m (st.1 + 1) h s]) := by
            unfold coverStep
            rw [hsig]
            dsimp only
            rw [if_pos ⟨hstrong, hclean⟩]
          refine ⟨buildCover m (st.1 + 1) h s, ?_, buildCover_shape m _ h s⟩
          apply coverFold_mem m rest (coverStep m st h)
          rw [hstep]
          exact List.mem_append_right _ (List.mem_singleton.mpr rfl)
        · -- analyse the step taken for h0
          rcases hstep : coverStep m st h0 with ⟨n', l'⟩
          have hsub : ∀ x ∈ l', x ∈ st.2
              ∨ ∃ s0, techSignalOpt m (h0.instrument_code.getD "") = some s0
                  ∧ x = buildCover m (st.1 + 1) h0 s0 := by
            intro x hx
            unfold coverStep at hstep
            rcases hs0 : techSignalOpt m (h0.instrument_code.getD "") with _ | s0 <;>
              (rw [hs0] at hstep; dsimp only at hstep)
            · rw [show l' = st.2 from congrArg Prod.snd hstep.symm] at hx
              exact Or.inl hx
            · by_cases hc : (s0 = "STRONG_SELL" ∨ s0 = "STRONG_BUY")
                  ∧ ∀ r ∈ st.2, ¬ r.instrument_code = h0.instrument_code.getD ""
              · rw [if_pos hc] at hstep
                rw [show l' = st.2 ++ [buildCover m (st.1 + 1) h0 s0]
                    from congrArg Prod.snd hstep.symm] at hx
                rcases List.mem_append.mp hx with hx' | hx'
                · exact Or.inl hx'
                · exact Or.inr ⟨s0, rfl, List.mem_singleton.mp hx'⟩
              · rw [if_neg hc] at hstep
                rw [show l' = st.2 from congrArg Prod.snd hstep.symm] at hx
                exact Or.inl hx
          by_cases hsame : h0.instrument_code.getD "" = h.instrument_code.getD ""
          · -- the new state either still has no rec with this code, or got one of shape
            have : (∀ r ∈ l', ¬ r.instrument_code = h.instrument_code.getD "")
                ∨ ∃ r ∈ l', coverShape (h.instrument_code.getD "") s r := by
              by_cases hall : ∀ r ∈ l', ¬ r.instrument_code = h.instrument_code.getD ""
              · exact Or.inl hall
              · push_neg at hall
                obtain ⟨r, hrl, hrc⟩ := hall
                rcases hsub r hrl with hold | ⟨s0, hs0, rfl⟩
                · exact absurd hrc (hclean r hold)
                · rw [hsame] at hs0
                  rw [hsig] at hs0
                  injection hs0 with hs0'
                  subst hs0'
                  refine Or.inr ⟨buildCover m (st.1 + 1) h0 s, ?_, ?_⟩
                  · exact hrl
                  · have := buildCover_shape m (st.1 + 1) h0 s
                    rw [hsame] at this
                    exact this
            have hres := coverFold_exists_shape m hsig hstrong rest (n', l') hm' this
            have hunf : coverFold m (h0 :: rest) st
                = coverFold m rest (coverStep m st h0) := rfl
            rw [hunf, hstep]
            exact hres
          · -- different code: the no-rec-with-code property survives
            have hclean' : ∀ r ∈ l', ¬ r.instrument_code = h.instrument_code.getD "" := by
              intro r hrl
              rcases hsub r hrl with hold | ⟨s0, _, rfl⟩
              · exact hclean r hold
              · show ¬ (buildCover m (st.1 + 1) h0 s0).instrument_code
                    = h.instrument_code.getD ""
                intro hbad
                exact hsame hbad
            have hres := coverFold_exists_shape m hsig hstrong rest (n', l') hm'
              (Or.inl hclean')
            have hunf : coverFold m (h0 :: rest) st
                = coverFold m rest (coverStep m st h0) := rfl
            rw [hunf, hstep]
            exact hres
      · -- a shaped recommendation already exists and survives the fold
        exact ⟨r, coverFold_mem m (h0 :: rest) st hr, hshape⟩

/-!
## Claims C3, C4, C5 and C10
-/

/-- Claim C3: every holding whose technical signal is STRONG_BUY or
STRONG_SELL is covered — the returned recommendation list contains at
least one entry with that holding's instrument code — and when no
directive-driven recommendation (phase 1) references the code, the list
contains a standalone coverage recommendation with action ACCUMULATE
(STRONG_BUY) or REVIEW (STRONG_SELL), confidence 45, priority MEDIUM
and a null directive reference. -/
theorem c3_strong_signal_coverage (dirs : List Directive) (m : TechMap)
    (ss : List SectorSig) (client : Client) (holdings : List Holding)
    (h : Holding) (s : String)
    (hmem : h ∈ holdings)
    (hsig : techSignalOpt m (h.instrument_code.getD "") = some s)
    (hstrong : s = "STRONG_BUY" ∨ s = "STRONG_SELL") :
    (∃ r ∈ mock_generate_recommendations dirs m ss client holdings,
        r.instrument_code = h.instrument_code.getD "")
    ∧ ((∀ r ∈ (phase1 dirs m ss client (sectorAlloc holdings) holdings).2,
          ¬ r.instrument_code = h.instrument_code.getD "") →
        ∃ r ∈ mock_generate_recommendations dirs m ss client holdings,
          coverShape (h.instrument_code.getD "") s r) := by
  have hstrong' : s = "STRONG_SELL" ∨ s = "STRONG_BUY" := hstrong.symm
  constructor
  · obtain ⟨r, hr, hc⟩ := coverFold_exists_code m hsig hstrong' holdings
      (phase1 dirs m ss client (sectorAlloc holdings) holdings) hmem
    exact ⟨r, mem_stableSortDesc.mpr hr, hc⟩
  · intro hclean
    obtain ⟨r, hr, hsh⟩ := coverFold_exists_shape m hsig hstrong' holdings
      (phase1 dirs m ss client (sectorAlloc holdings) holdings) hmem (Or.inl hclean)
    exact ⟨r, mem_stableSortDesc.mpr hr, hsh⟩

/-- One technical-signal map marking instrument F1 as STRONG_BUY. -/
def demoTech : TechMap :=
  [("F1", { composite_score := some 80, signal := some "STRONG_BUY" })]

/-- A holding of instrument F1. -/
def demoHolding : Holding :=
  { instrument_code := some "F1", sector_tag := some "IT",
    current_value := some 1000, allocation_pct := some 10 }

/-- Witness for C3: one F1 holding with a STRONG_BUY signal and no
directives at all — the output must contain a coverage ACCUMULATE
recommendation for F1. -/
theorem c3_strong_signal_coverage_witness :
    demoHolding ∈ [demoHolding]
    ∧ techSignalOpt demoTech (demoHolding.instrument_code.getD "") = some "STRONG_BUY"
    ∧ ("STRONG_BUY" = "STRONG_BUY" ∨ "STRONG_BUY" = "STRONG_SELL")
    ∧ ((∃ r ∈ mock_generate_recommendations [] demoTech [] {} [demoHolding],
          r.instrument_code = demoHolding.instrument_code.getD "")
      ∧ ((∀ r ∈ (phase1 [] demoTech [] {} (sectorAlloc [demoHolding]) [demoHolding]).2,
            ¬ r.instrument_code = demoHolding.instrument_code.getD "") →
          ∃ r ∈ mock_generate_recommendations [] demoTech [] {} [demoHolding],
            coverShape (demoHolding.instrument_code.getD "") "STRONG_BUY" r)) :=
  ⟨List.mem_singleton.mpr rfl, rfl, Or.inl rfl,
    c3_strong_signal_coverage [] demoTech [] {} [demoHolding] demoHolding "STRONG_BUY"
      (List.mem_singleton.mpr rfl) rfl (Or.inl rfl)⟩

/-- Claim C5: the returned recommendation list is sorted in
non-increasing order of confidence; equal-confidence entries keep their
generation order (the sort is stable, witnessed by strictly increasing
`rec_count` stamps); the list is a permutation of the generated
records; and the whole computation is a pure function of its inputs, so
identical inputs give identical output and identical ids. -/
theorem c5_sorted_stable_deterministic (dirs : List Directive) (m : TechMap)
    (ss : List SectorSig) (client : Client) (holdings : List Holding) :
    (mock_generate_recommendations dirs m ss client holdings).Pairwise
      (fun a b => b.confidence ≤ a.confidence)
    ∧ (mock_generate_recommendations dirs m ss client holdings).Pairwise
      (fun a b => a.confidence = b.confidence → a.recNum < b.recNum)
    ∧ List.Perm (mock_generate_recommendations dirs m ss client holdings)
      (coverFold m holdings (phase1 dirs m ss client (sectorAlloc holdings) holdings)).2
    ∧ mock_generate_recommendations dirs m ss client holdings
      = mock_generate_recommendations dirs m ss client holdings := by
  have hpw := pairwise_stableSortDesc (engine_pairwise dirs m ss client holdings)
  refine ⟨?_, ?_, stableSortDesc_perm _, rfl⟩
  · refine hpw.imp (fun hab => ?_)
    rcases hab with hlt | ⟨heq, _⟩
    · exact le_of_lt hlt
    · exact le_of_eq heq.symm
  · refine hpw.imp (fun hab => ?_)
    intro heq
    rcases hab with hlt | ⟨_, hn⟩
    · omega
    · exact hn

theorem dirRecs_reduce_eq (m : TechMap) (ss : List SectorSig) (client : Client)
    (salloc : List (String × ℚ)) (holdings : List Holding) (n : ℕ) (d : Directive)
    (happ : applies d client salloc = true)
    (hact : d.action.getD "" = "REDUCE_EXPOSURE")
    (hne : ¬ holdings.filter (matchesTarget d) = []) :
    dirRecs m ss client salloc holdings n d
      = buildSeq (buildReduce d m) n (holdings.filter (matchesTarget d)) := by
  unfold dirRecs
  rw [if_pos happ, if_pos ⟨hact, hne⟩]

/-- Claim C4 (amended): every REDUCE_EXPOSURE directive matched to a
holding yields a REDEEM recommendation whose reduction percentage is
the parsed magnitude, defaulting to 50 when the magnitude is absent or
unparseable; whose amount is `round(current_value*pct/100)` (Python
banker's rounding to an integer — the claim's exact
`current_value*pct/100` only up to that rounding); whose confidence is
85 / 70 / 50 as the technical score is < -20 / < 0 / otherwise; whose
priority is HIGH exactly when confidence > 70 and MEDIUM otherwise; and
whose allocation_after is `round(allocation_before*(1-pct/100), 1)`
(1-decimal rounding). -/
theorem c4_reduce_exposure_rule (dirs : List Directive) (m : TechMap)
    (ss : List SectorSig) (client : Client) (holdings : List Holding)
    (d : Directive) (h : Holding)
    (hd : d ∈ dirs)
    (happ : applies d client (sectorAlloc holdings) = true)
    (hact : d.action.getD "" = "REDUCE_EXPOSURE")
    (hm : h ∈ holdings)
    (hmatch : matchesTarget d h = true) :
    ∃ r ∈ mock_generate_recommendations dirs m ss client holdings,
      r.instrument_code = h.instrument_code.getD ""
      ∧ r.action = "REDEEM"
      ∧ r.fm_directive_ref = d.id
      ∧ r.amount = pyRound (h.current_value.getD 0 * (reducePct d.magnitude : ℚ) / 100)
      ∧ r.confidence = (if techScoreOf m (h.instrument_code.getD "") < -20 then 85
          else if techScoreOf m (h.instrument_code.getD "") < 0 then 70 else 50)
      ∧ (r.priority = "HIGH" ↔ 70 < r.confidence)
      ∧ (r.priority = "HIGH" ∨ r.priority = "MEDIUM")
      ∧ r.allocation_before_pct = h.allocation_pct.getD 0
      ∧ r.allocation_after_pct
          = pyRound1 (h.allocation_pct.getD 0 * (1 - (reducePct d.magnitude : ℚ) / 100))
      ∧ (d.magnitude.getD "" = "" → reducePct d.magnitude = 50)
      ∧ (¬ d.magnitude.getD "" = "" →
          pyInt (pyReplaceDel (d.magnitude.getD "") "%") = none → reducePct d.magnitude = 50)
      ∧ (∀ v : ℤ, ¬ d.magnitude.getD "" = "" →
          pyInt (pyReplaceDel (d.magnitude.getD "") "%") = some v → reducePct d.magnitude = v) := by
  have hmf : h ∈ holdings.filter (matchesTarget d) := List.mem_filter.mpr ⟨hm, hmatch⟩
  have hne : ¬ holdings.filter (matchesTarget d) = [] := by
    intro he
    rw [he] at hmf
    exact List.not_mem_nil _ hmf
  obtain ⟨n, hn⟩ := phase1_dir_contrib m ss client (sectorAlloc holdings) holdings dirs (0, []) hd
  obtain ⟨k, hk⟩ := buildSeq_mem (buildReduce d m) (holdings.filter (matchesTarget d)) n h hmf
  have hmem1 : buildReduce d m k h ∈ dirRecs m ss client (sectorAlloc holdings) holdings n d := by
    rw [dirRecs_reduce_eq m ss client (sectorAlloc holdings) holdings n d happ hact hne]
    exact hk
  have hmem2 := hn _ hmem1
  have hmem3 := coverFold_mem m holdings _ hmem2
  refine ⟨buildReduce d m k h, mem_stableSortDesc.mpr hmem3,
    rfl, rfl, rfl, rfl, rfl, ?_, ?_, rfl, rfl, ?_, ?_, ?_⟩
  · have hpr : (buildReduce d m k h).priority
        = (if 70 < (buildReduce d m k h).confidence then "HIGH" else "MEDIUM") := rfl
    constructor
    · intro hp
      by_cases hc : 70 < (buildReduce d m k h).confidence
      · exact hc
      · rw [hpr, if_neg hc] at hp
        exact absurd hp (by simp)
    · intro hc
      rw [hpr, if_pos hc]
  · have hpr : (buildReduce d m k h).priority
        = (if 70 < (buildReduce d m k h).confidence then "HIGH" else "MEDIUM") := rfl
    rw [hpr]
    split_ifs
    · exact Or.inl rfl
    · exact Or.inr rfl
  · intro hmag
    unfold reducePct
    rw [if_pos hmag]
  · intro hmagne hparse
    unfold reducePct
    rw [if_neg hmagne, hparse]
  · intro v hmagne hparse
    unfold reducePct
    rw [if_neg hmagne, hparse]

/-- The REDUCE_EXPOSURE directive of the C4 scenario (no magnitude would
default; here the spec scenario's explicit "50%" with a tiny holding
exposes the rounding). -/
def dReduce : Directive :=
  { id := some "D1", action := some "REDUCE_EXPOSURE", target_type := some "SECTOR",
    target := some "IT", magnitude := none, applies_to := some "ALL_CLIENTS" }

/-- A one-rupee IT holding: 50% of it is half a rupee, which Python
`round` turns into 0. -/
def hTiny : Holding :=
  { instrument_code := some "ITF", sector_tag := some "IT",
    current_value := some 1, allocation_pct := some 10 }

/-- Tech map putting instrument ITF at score -25 (signal SELL). -/
def mTech : TechMap :=
  [("ITF", { composite_score := some (-25), signal := some "SELL" })]

/-- Counterexample to claim C4 as stated: a REDUCE_EXPOSURE directive
with no magnitude (default 50%) matched to a holding with
current_value = 1 produces `amount = round(0.5) = 0`, not the claim's
exact `current_value * pct/100 = 0.5`. -/
theorem c4_counterexample :
    mock_generate_recommendations [dReduce] mTech [] {} [hTiny]
      = [buildReduce dReduce mTech 1 hTiny]
    ∧ (buildReduce dReduce mTech 1 hTiny).amount = 0
    ∧ hTiny.current_value.getD 0 * (reducePct dReduce.magnitude : ℚ) / 100 = 1 / 2
    ∧ ¬ ((buildReduce dReduce mTech 1 hTiny).amount : ℚ)
        = hTiny.current_value.getD 0 * (reducePct dReduce.magnitude : ℚ) / 100 := by
  have hpct : reducePct dReduce.magnitude = 50 := rfl
  have hval : hTiny.current_value.getD 0 * (reducePct dReduce.magnitude : ℚ) / 100 = 1 / 2 := by
    rw [hpct]
    norm_num [hTiny]
  have hamt : (buildReduce dReduce mTech 1 hTiny).amount = 0 := by
    show pyRound (hTiny.current_value.getD 0 * (reducePct dReduce.magnitude : ℚ) / 100) = 0
    rw [hval]
    norm_num [pyRound]
  refine ⟨?_, hamt, hval, ?_⟩
  · simp [mock_generate_recommendations, phase1, phase1Step, coverFold, coverStep,
      dirRecs, applies, sectorAlloc, bumpAlloc, matchesTarget, techSignalOpt, techEntry,
      dReduce, hTiny, mTech, buildSeq, stableSortDesc, insertDesc, pyUpper]
  · rw [hamt, hval]
    norm_num

/-- The holding of the spec's C4 scenario: allocation 10%,
current_value 100000, in the IT sector, with technical score -25. -/
def demoReduceHolding : Holding :=
  { instrument_code := some "ITF", sector_tag := some "IT",
    current_value := some 100000, allocation_pct := some 10 }

/-- Witness for C4 (amended), on the spec's own scenario: allocation 10%,
50% reduction (defaulted magnitude), technical score -25,
current_value 100000 — confidence 85, priority HIGH,
allocation_after 5.0, amount 50000. -/
theorem c4_reduce_exposure_rule_witness :
    dReduce ∈ [dReduce]
    ∧ applies dReduce {} (sectorAlloc [demoReduceHolding]) = true
    ∧ dReduce.action.getD "" = "REDUCE_EXPOSURE"
    ∧ demoReduceHolding ∈ [demoReduceHolding]
    ∧ matchesTarget dReduce demoReduceHolding = true
    ∧ (∃ r ∈ mock_generate_recommendations [dReduce] mTech [] {} [demoReduceHolding],
        r.instrument_code = demoReduceHolding.instrument_code.getD ""
        ∧ r.action = "REDEEM"
        ∧ r.fm_directive_ref = dReduce.id
        ∧ r.amount = pyRound (demoReduceHolding.current_value.getD 0
            * (reducePct dReduce.magnitude : ℚ) / 100)
        ∧ r.confidence = (if techScoreOf mTech (demoReduceHolding.instrument_code.getD "") < -20
            then 85
            else if techScoreOf mTech (demoReduceHolding.instrument_code.getD "") < 0 then 70
            else 50)
        ∧ (r.priority = "HIGH" ↔ 70 < r.confidence)
        ∧ (r.priority = "HIGH" ∨ r.priority = "MEDIUM")
        ∧ r.allocation_before_pct = demoReduceHolding.allocation_pct.getD 0
        ∧ r.allocation_after_pct = pyRound1 (demoReduceHolding.allocation_pct.getD 0
            * (1 - (reducePct dReduce.magnitude : ℚ) / 100))
        ∧ (dReduce.magnitude.getD "" = "" → reducePct dReduce.magnitude = 50)
        ∧ (¬ dReduce.magnitude.getD "" = "" →
            pyInt (pyReplaceDel (dReduce.magnitude.getD "") "%") = none
            → reducePct dReduce.magnitude = 50)
        ∧ (∀ v : ℤ, ¬ dReduce.magnitude.getD "" = "" →
            pyInt (pyReplaceDel (dReduce.magnitude.getD "") "%") = some v
            → reducePct dReduce.magnitude = v))
    ∧ reducePct dReduce.magnitude = 50
    ∧ techScoreOf mTech "ITF" = -25
    ∧ pyRound (demoReduceHolding.current_value.getD 0
        * (reducePct dReduce.magnitude : ℚ) / 100) = 50000
    ∧ pyRound1 (demoReduceHolding.allocation_pct.getD 0
        * (1 - (reducePct dReduce.magnitude : ℚ) / 100)) = 5 := by
  refine ⟨List.mem_singleton.mpr rfl, rfl, rfl, List.mem_singleton.mpr rfl, rfl,
    c4_reduce_exposure_rule [dReduce] mTech [] {} [demoReduceHolding] dReduce
      demoReduceHolding (List.mem_singleton.mpr rfl) rfl rfl
      (List.mem_singleton.mpr rfl) rfl, rfl, rfl, ?_, ?_⟩
  · have hpct : reducePct dReduce.magnitude = 50 := rfl
    rw [hpct]
    norm_num [demoReduceHolding, pyRound]
  · have hpct : reducePct dReduce.magnitude = 50 := rfl
    rw [hpct]
    norm_num [demoReduceHolding, pyRound1, pyRound]

theorem dirRecs_gold_eq (m : TechMap) (ss : List SectorSig) (client : Client)
    (salloc : List (String × ℚ)) (holdings : List Holding) (n : ℕ) (d : Directive)
    (happ : applies d client salloc = true)
    (hact : d.action.getD "" = "INCREASE_ALLOCATION")
    (htgt : d.target.getD "" = "GOLD")
    (hgold : List.lookup "GOLD" salloc = none ∨ (List.lookup "GOLD" salloc).getD 0 < 15) :
    dirRecs m ss client salloc holdings n d
      = [buildGold d (client.total_aum.getD 0) ((List.lookup "GOLD" salloc).getD 0) (n + 1)] := by
  unfold dirRecs
  rw [if_pos happ]
  rw [if_neg (by rintro ⟨h1, _⟩; rw [hact] at h1; exact absurd h1 (by simp))]
  rw [if_neg (by rintro ⟨h1, _⟩; rw [hact] at h1; exact absurd h1 (by simp))]
  rw [if_pos ⟨hact, htgt⟩, if_pos hgold]

/-- Claim C10 (amended): an applicable INCREASE_ALLOCATION directive
targeting GOLD fires whenever the client's gold allocation is absent or
below 15%, with no lower bound on the computed add amount: the emitted
recommendation has `amount = round(aum*(target_pct - current_gold)/100)`
and `allocation_after = target_pct`; when the parsed target percentage
is below the current gold allocation (and AUM is non-negative), the
allocation_after is lower than allocation_before and the amount is
non-positive — strictly negative only when the rounded value is, since
banker's rounding sends small negative quantities to 0. -/
theorem c10_gold_increase_rule (dirs : List Directive) (m : TechMap)
    (ss : List SectorSig) (client : Client) (holdings : List Holding) (d : Directive)
    (hd : d ∈ dirs)
    (happ : applies d client (sectorAlloc holdings) = true)
    (hact : d.action.getD "" = "INCREASE_ALLOCATION")
    (htgt : d.target.getD "" = "GOLD")
    (hgold : List.lookup "GOLD" (sectorAlloc holdings) = none
      ∨ (List.lookup "GOLD" (sectorAlloc holdings)).getD 0 < 15) :
    ∃ r ∈ mock_generate_recommendations dirs m ss client holdings,
      r.instrument_code = "NSE:GOLDBEES"
      ∧ r.sector = "GOLD"
      ∧ r.fm_directive_ref = d.id
      ∧ r.confidence = 70
      ∧ r.priority = "HIGH"
      ∧ r.allocation_before_pct = (List.lookup "GOLD" (sectorAlloc holdings)).getD 0
      ∧ r.allocation_after_pct = (goldTargetPct d.magnitude : ℚ)
      ∧ r.amount = pyRound (client.total_aum.getD 0
          * ((goldTargetPct d.magnitude : ℚ)
            - (List.lookup "GOLD" (sectorAlloc holdings)).getD 0) / 100)
      ∧ ((goldTargetPct d.magnitude : ℚ)
            < (List.lookup "GOLD" (sectorAlloc holdings)).getD 0 →
          0 ≤ client.total_aum.getD 0 →
          r.allocation_after_pct < r.allocation_before_pct ∧ r.amount ≤ 0) := by
  obtain ⟨n, hn⟩ := phase1_dir_contrib m ss client (sectorAlloc holdings) holdings dirs (0, []) hd
  have hmem1 : buildGold d (client.total_aum.getD 0)
      ((List.lookup "GOLD" (sectorAlloc holdings)).getD 0) (n + 1)
      ∈ dirRecs m ss client (sectorAlloc holdings) holdings n d := by
    rw [dirRecs_gold_eq m ss client (sectorAlloc holdings) holdings n d happ hact htgt hgold]
    exact List.mem_singleton.mpr rfl
  have hmem2 := hn _ hmem1
  have hmem3 := coverFold_mem m holdings _ hmem2
  refine ⟨buildGold d (client.total_aum.getD 0)
    ((List.lookup "GOLD" (sectorAlloc holdings)).getD 0) (n + 1),
    mem_stableSortDesc.mpr hmem3, rfl, rfl, rfl, rfl, rfl, rfl, rfl, rfl, ?_⟩
  intro hlt haum
  constructor
  · exact hlt
  · show pyRound (client.total_aum.getD 0
        * ((goldTargetPct d.magnitude : ℚ)
          - (List.lookup "GOLD" (sectorAlloc holdings)).getD 0) / 100) ≤ 0
    have hq : client.total_aum.getD 0
        * ((goldTargetPct d.magnitude : ℚ)
          - (List.lookup "GOLD" (sectorAlloc holdings)).getD 0) / 100 ≤ 0 := by
      have hneg : (goldTargetPct d.magnitude : ℚ)
          - (List.lookup "GOLD" (sectorAlloc holdings)).getD 0 ≤ 0 := by linarith
      have := mul_nonpos_of_nonneg_of_nonpos haum hneg
      linarith
    have := pyRound_le _ 0 (by exact_mod_cast hq)
    exact this

/-- An INCREASE_ALLOCATION GOLD directive whose magnitude parses to a
target (5%) below the client's current gold allocation (10%). -/
def dGoldCut : Directive :=
  { id := some "D2", action := some "INCREASE_ALLOCATION", target_type := some "ASSET_CLASS",
    target := some "GOLD", magnitude := some "5", applies_to := some "ALL_CLIENTS" }

/-- A gold holding occupying 10% of the portfolio. -/
def hGold : Holding :=
  { instrument_code := some "GLD", sector_tag := some "GOLD",
    current_value := some 100, allocation_pct := some 10 }

/-- A client with one rupee under management. -/
def clientTiny : Client := { total_aum := some 1 }

/-- Counterexample to claim C10 as stated: with AUM = 1, gold at 10% and
target 5%, the rule fires and projects the allocation down from 10 to
5, but the emitted amount is `round(1*(5-10)/100) = round(-0.05) = 0`,
not a negative number as the claim asserts. -/
theorem c10_counterexample :
    mock_generate_recommendations [dGoldCut] [] [] clientTiny [hGold]
      = [buildGold dGoldCut 1 10 1]
    ∧ (buildGold dGoldCut 1 10 1).allocation_after_pct
        < (buildGold dGoldCut 1 10 1).allocation_before_pct
    ∧ (buildGold dGoldCut 1 10 1).amount = 0
    ∧ ¬ (buildGold dGoldCut 1 10 1).amount < 0 := by
  have htp : goldTargetPct dGoldCut.magnitude = 5 := by
    simp [goldTargetPct, dGoldCut, pyReplaceDel, removePat, pyInt, digitsVal]
  have hafter : (buildGold dGoldCut 1 10 1).allocation_after_pct
      = (goldTargetPct dGoldCut.magnitude : ℚ) := rfl
  have hamt : (buildGold dGoldCut 1 10 1).amount = 0 := by
    show pyRound (1 * ((goldTargetPct dGoldCut.magnitude : ℚ) - 10) / 100) = 0
    rw [htp]
    norm_num [pyRound]
  refine ⟨?_, ?_, hamt, ?_⟩
  · simp [mock_generate_recommendations, phase1, phase1Step, coverFold, coverStep,
      dirRecs, applies, sectorAlloc, bumpAlloc, matchesTarget, techSignalOpt, techEntry,
      dGoldCut, hGold, clientTiny, stableSortDesc, insertDesc]
  · rw [hafter, htp]
    show ((5 : ℤ) : ℚ) < (buildGold dGoldCut 1 10 1).allocation_before_pct
    show ((5 : ℤ) : ℚ) < 10
    norm_num
  · rw [hamt]
    omega

/-- A client with ten lakh rupees under management. -/
def clientBig : Client := { total_aum := some 1000000 }

/-- Witness for C10 (amended): AUM 1,000,000, gold at 10%, target 5% —
the emitted recommendation projects allocation 10% → 5% and its amount
is round(1000000*(5-10)/100) = -50000 ≤ 0. -/
theorem c10_gold_increase_rule_witness :
    dGoldCut ∈ [dGoldCut]
    ∧ applies dGoldCut clientBig (sectorAlloc [hGold]) = true
    ∧ dGoldCut.action.getD "" = "INCREASE_ALLOCATION"
    ∧ dGoldCut.target.getD "" = "GOLD"
    ∧ (List.lookup "GOLD" (sectorAlloc [hGold]) = none
      ∨ (List.lookup "GOLD" (sectorAlloc [hGold])).getD 0 < 15)
    ∧ (∃ r ∈ mock_generate_recommendations [dGoldCut] [] [] clientBig [hGold],
        r.instrument_code = "NSE:GOLDBEES"
        ∧ r.sector = "GOLD"
        ∧ r.fm_directive_ref = dGoldCut.id
        ∧ r.confidence = 70
        ∧ r.priority = "HIGH"
        ∧ r.allocation_before_pct = (List.lookup "GOLD" (sectorAlloc [hGold])).getD 0
        ∧ r.allocation_after_pct = (goldTargetPct dGoldCut.magnitude : ℚ)
        ∧ r.amount = pyRound (clientBig.total_aum.getD 0
            * ((goldTargetPct dGoldCut.magnitude : ℚ)
              - (List.lookup "GOLD" (sectorAlloc [hGold])).getD 0) / 100)
        ∧ ((goldTargetPct dGoldCut.magnitude : ℚ)
              < (List.lookup "GOLD" (sectorAlloc [hGold])).getD 0 →
            0 ≤ clientBig.total_aum.getD 0 →
            r.allocation_after_pct < r.allocation_before_pct ∧ r.amount ≤ 0))
    ∧ goldTargetPct dGoldCut.magnitude = 5
    ∧ (goldTargetPct dGoldCut.magnitude : ℚ) < (List.lookup "GOLD" (sectorAlloc [hGold])).getD 0
    ∧ pyRound (clientBig.total_aum.getD 0
        * ((goldTargetPct dGoldCut.magnitude : ℚ)
          - (List.lookup "GOLD" (sectorAlloc [hGold])).getD 0) / 100) = -50000 := by
  have htp : goldTargetPct dGoldCut.magnitude = 5 := by
    simp [goldTargetPct, dGoldCut, pyReplaceDel, removePat, pyInt, digitsVal]
  have hcur : (List.lookup "GOLD" (sectorAlloc [hGold])).getD 0 = 10 := rfl
  refine ⟨List.mem_singleton.mpr rfl, rfl, rfl, rfl, Or.inr (by rw [hcur]; norm_num),
    c10_gold_increase_rule [dGoldCut] [] [] clientBig [hGold] dGoldCut
      (List.mem_singleton.mpr rfl) rfl rfl rfl (Or.inr (by rw [hcur]; norm_num)),
    htp, ?_, ?_⟩
  · rw [htp, hcur]
    norm_num
  · rw [htp, hcur]
    show pyRound (clientBig.total_aum.getD 0 * (((5 : ℤ) : ℚ) - 10) / 100) = -50000
    norm_num [clientBig, pyRound]

end FIE
